import Mathlib

/-!
Verification development for the pysisense repository (a Sisense REST-API
client and migration toolkit).  The Python sources under `src/pysisense/` are
shallowly embedded: JSON payloads become the inductive `JVal`, HTTP responses
become `Resp` records, the network becomes explicit environment records of
oracles, and Python exceptions become `Except` results.  Machine-level detail
(logging text, sleeps, the `emit` progress callbacks) is dropped where it does
not influence any returned value; where a logged warning is itself part of a
claim the embedding collects the would-be warnings in an explicit list.
-/

namespace PySisense

/-- JSON values as manipulated by the migration code.  Python `None` and JSON
`null` are identified (both are `None` at runtime).  JSON numbers are
abstracted to `Int`: no code in the repository branches on fractional parts. -/
inductive JVal where
  | jnull : JVal
  | jbool : Bool → JVal
  | jnum : Int → JVal
  | jstr : String → JVal
  | jarr : List JVal → JVal
  | jobj : List (String × JVal) → JVal
deriving Inhabited

mutual

/-- Structural equality on JSON values (Python `==` on parsed JSON). -/
def JVal.beq : JVal → JVal → Bool
  | .jnull, .jnull => true
  | .jbool a, .jbool b => a == b
  | .jnum a, .jnum b => a == b
  | .jstr a, .jstr b => a == b
  | .jarr a, .jarr b => JVal.beqArr a b
  | .jobj a, .jobj b => JVal.beqObj a b
  | _, _ => false

def JVal.beqArr : List JVal → List JVal → Bool
  | [], [] => true
  | x :: xs, y :: ys => JVal.beq x y && JVal.beqArr xs ys
  | _, _ => false

def JVal.beqObj : List (String × JVal) → List (String × JVal) → Bool
  | [], [] => true
  | (k₁, v₁) :: xs, (k₂, v₂) :: ys => k₁ == k₂ && JVal.beq v₁ v₂ && JVal.beqObj xs ys
  | _, _ => false

end

instance : BEq JVal := ⟨JVal.beq⟩

mutual

theorem JVal.beq_refl : ∀ a : JVal, JVal.beq a a = true
  | .jnull => rfl
  | .jbool b => by simp [JVal.beq]
  | .jnum n => by simp [JVal.beq]
  | .jstr s => by simp [JVal.beq]
  | .jarr xs => JVal.beqArr_refl xs
  | .jobj fs => JVal.beqObj_refl fs

theorem JVal.beqArr_refl : ∀ xs : List JVal, JVal.beqArr xs xs = true
  | [] => rfl
  | x :: xs => by simp [JVal.beqArr, JVal.beq_refl x, JVal.beqArr_refl xs]

theorem JVal.beqObj_refl : ∀ fs : List (String × JVal), JVal.beqObj fs fs = true
  | [] => rfl
  | (k, v) :: fs => by simp [JVal.beqObj, JVal.beq_refl v, JVal.beqObj_refl fs]

end

mutual

theorem JVal.eq_of_beq : ∀ a b : JVal, JVal.beq a b = true → a = b
  | .jnull, b, h => by cases b <;> simp_all [JVal.beq]
  | .jbool x, b, h => by cases b <;> simp_all [JVal.beq]
  | .jnum x, b, h => by cases b <;> simp_all [JVal.beq]
  | .jstr x, b, h => by cases b <;> simp_all [JVal.beq]
  | .jarr xs, .jarr ys, h => by
      have hx := JVal.eqArr_of_beq xs ys (by simpa [JVal.beq] using h)
      simp [hx]
  | .jarr _, .jnull, h => by simp [JVal.beq] at h
  | .jarr _, .jbool _, h => by simp [JVal.beq] at h
  | .jarr _, .jnum _, h => by simp [JVal.beq] at h
  | .jarr _, .jstr _, h => by simp [JVal.beq] at h
  | .jarr _, .jobj _, h => by simp [JVal.beq] at h
  | .jobj fs, .jobj gs, h => by
      have hx := JVal.eqObj_of_beq fs gs (by simpa [JVal.beq] using h)
      simp [hx]
  | .jobj _, .jnull, h => by simp [JVal.beq] at h
  | .jobj _, .jbool _, h => by simp [JVal.beq] at h
  | .jobj _, .jnum _, h => by simp [JVal.beq] at h
  | .jobj _, .jstr _, h => by simp [JVal.beq] at h
  | .jobj _, .jarr _, h => by simp [JVal.beq] at h

theorem JVal.eqArr_of_beq : ∀ xs ys : List JVal, JVal.beqArr xs ys = true → xs = ys
  | [], [], _ => rfl
  | [], _ :: _, h => by simp [JVal.beqArr] at h
  | _ :: _, [], h => by simp [JVal.beqArr] at h
  | x :: xs, y :: ys, h => by
      rw [JVal.beqArr, Bool.and_eq_true] at h
      rw [JVal.eq_of_beq x y h.1, JVal.eqArr_of_beq xs ys h.2]

theorem JVal.eqObj_of_beq : ∀ fs gs : List (String × JVal), JVal.beqObj fs gs = true → fs = gs
  | [], [], _ => rfl
  | [], _ :: _, h => by simp [JVal.beqObj] at h
  | _ :: _, [], h => by simp [JVal.beqObj] at h
  | (k₁, v₁) :: fs, (k₂, v₂) :: gs, h => by
      rw [JVal.beqObj, Bool.and_eq_true, Bool.and_eq_true] at h
      have hk : k₁ = k₂ := by have := h.1.1; simpa using this
      rw [hk, JVal.eq_of_beq v₁ v₂ h.1.2, JVal.eqObj_of_beq fs gs h.2]

end

instance : LawfulBEq JVal where
  eq_of_beq h := JVal.eq_of_beq _ _ h
  rfl := JVal.beq_refl _

instance : DecidableEq JVal := fun a b =>
  if h : JVal.beq a b = true then isTrue (JVal.eq_of_beq a b h)
  else isFalse (fun he => h (he ▸ JVal.beq_refl a))

/-- Python truthiness of a JSON value (`bool(x)`). -/
def JVal.truthy : JVal → Bool
  | .jnull => false
  | .jbool b => b
  | .jnum n => n != 0
  | .jstr s => s != ""
  | .jarr xs => !xs.isEmpty
  | .jobj fs => !fs.isEmpty

/-- `str(x)` as used inside f-strings.  For scalars this matches CPython; the
rendering of containers is abstracted (no claim depends on it). -/
def JVal.pyStr : JVal → String
  | .jnull => "None"
  | .jbool b => if b then "True" else "False"
  | .jnum n => toString n
  | .jstr s => s
  | .jarr _ => "[...]"
  | .jobj _ => "{...}"

/-- `d.get(k)` on a JSON object: `null` (Python `None`) when absent. -/
def JVal.get : JVal → String → JVal
  | .jobj fs, k => (fs.lookup k).getD JVal.jnull
  | _, _ => JVal.jnull

/-- `d.get(k, default)` on a JSON object. -/
def JVal.getD : JVal → String → JVal → JVal
  | .jobj fs, k, dflt => (fs.lookup k).getD dflt
  | _, _, dflt => dflt

def JVal.isObj : JVal → Bool
  | .jobj _ => true
  | _ => false

/-- Extract a Python `str` (`isinstance(x, str)` guard followed by use). -/
def JVal.asStr : JVal → Option String
  | .jstr s => some s
  | _ => none

/-- Extract a Python `list` (`isinstance(x, list)` guard followed by use). -/
def JVal.asArr : JVal → Option (List JVal)
  | .jarr xs => some xs
  | _ => none

/-- Extract a Python `dict`'s items (`isinstance(x, dict)` guard). -/
def JVal.asObj : JVal → Option (List (String × JVal))
  | .jobj fs => some fs
  | _ => none

/-- Python exceptions that the embedded code can raise or observe. -/
inductive PyExc where
  | valueError (msg : String)
  | jsonError (msg : String)
  | keyError (key : String)
  | typeError (msg : String)
  | attributeError (msg : String)
deriving Repr, DecidableEq

def PyExc.message : PyExc → String
  | .valueError m => m
  | .jsonError m => m
  | .keyError k => k
  | .typeError m => m
  | .attributeError m => m

def PyExc.isValueError : PyExc → Bool
  | .valueError _ => true
  | _ => false

/-- `d[k]` indexing: `KeyError` on a dict without the key, `TypeError`
otherwise (the migration code only ever indexes parsed JSON). -/
def jindex (j : JVal) (k : String) : Except PyExc JVal :=
  match j with
  | .jobj fs =>
    match fs.lookup k with
    | some v => .ok v
    | none => .error (.keyError k)
  | _ => .error (.typeError ("indexing non-dict with key " ++ k))

/-- `requests.Response` distilled to the fields the repository reads.
`json = none` models a body on which `.json()` raises. -/
structure Resp where
  status_code : Int
  text : String
  json : Option JVal

/-- Python truthiness of a `requests.Response`: `bool(resp)` is
`resp.ok`, i.e. `status_code < 400`. -/
def Resp.ok (r : Resp) : Bool := r.status_code < 400

/-- Truthiness of an optional response (`if resp:` where `resp` is the value
returned by the client wrapper, possibly `None`). -/
def respTruthy : Option Resp → Bool
  | none => false
  | some r => r.ok

/-- `Migration._truncate` (default limit 500). -/
def truncate (text : String) (limit : Nat := 500) : String :=
  if text.length ≤ limit then text else text.take limit ++ "..."

/-- `Migration._safe_json`: returns `(json_dict, error_reason)`.  Mirrors the
source exactly, including the Python truthiness quirk: a completed 4xx/5xx
response is falsy, so it too yields "No response from server". -/
def safeJson (resp : Option Resp) : Option JVal × Option String :=
  if respTruthy resp = false then
    (none, some "No response from server")
  else
    match resp with
    | none => (none, some "No response from server")
    | some r =>
      match r.json with
      | some j => (some j, none)
      | none => (none, some ("Non-JSON response: " ++ truncate r.text))

/-! ## Python dictionaries as insertion-ordered association lists -/

/-- Python dict assignment `d[k] = v`: if the key is present its value is
replaced in place (keeping the first-insertion position), otherwise the pair
is appended. -/
def alistInsert [BEq κ] (m : List (κ × α)) (k : κ) (v : α) : List (κ × α) :=
  match m with
  | [] => [(k, v)]
  | (k', v') :: rest =>
    if k == k' then (k', v) :: rest else (k', v') :: alistInsert rest k v

/-- Python dict lookup `d.get(k)` / `d[k]` (keys are unique by construction,
so first match suffices). -/
def alookup [BEq κ] (m : List (κ × α)) (k : κ) : Option α :=
  match m with
  | [] => none
  | (k', v) :: rest => if k == k' then some v else alookup rest k

/-- `d.setdefault(k, []).append(x)`. -/
def alistAppend [BEq κ] (m : List (κ × List α)) (k : κ) (x : α) : List (κ × List α) :=
  match m with
  | [] => [(k, [x])]
  | (k', xs) :: rest =>
    if k == k' then (k', xs ++ [x]) :: rest else (k', xs) :: alistAppend rest k x

theorem alookup_insert [BEq κ] [LawfulBEq κ] (m : List (κ × α)) (k k' : κ) (v : α) :
    alookup (alistInsert m k v) k' = if k' == k then some v else alookup m k' := by
  induction m with
  | nil => simp [alistInsert, alookup]
  | cons hd tl ih =>
    obtain ⟨k₀, v₀⟩ := hd
    by_cases hk : k = k₀
    · subst hk
      by_cases hk' : k' = k <;> simp [alistInsert, alookup, hk']
    · have hbk : (k == k₀) = false := by simp [hk]
      by_cases hk' : k' = k₀
      · subst hk'
        have : (k' == k) = false := by simp; exact fun he => hk he.symm
        simp [alistInsert, alookup, hbk, this]
      · have hbk' : (k' == k₀) = false := by simp [hk']
        simp [alistInsert, alookup, hbk, hbk', ih]

/-- `d.get(k)` on a Python dict whose values are JSON values: `None` when
absent. -/
def jget (m : List (JVal × JVal)) (k : JVal) : JVal := (alookup m k).getD .jnull

/-- `for x in j` over a parsed JSON value: lists yield their items, dicts
their keys, strings their characters; other scalars raise `TypeError`. -/
def pyIter : JVal → Except PyExc (List JVal)
  | .jarr xs => .ok xs
  | .jobj fs => .ok (fs.map fun p => JVal.jstr p.1)
  | .jstr s => .ok (s.toList.map fun c => JVal.jstr (String.mk [c]))
  | j => .error (.typeError ("iterating non-iterable: " ++ j.pyStr))

/-- `x in {"...", ...}` where the right-hand side is a Python set of strings
and `x` is a parsed JSON value. -/
def jvalInStrSet (j : JVal) (set : List String) : Bool :=
  match j with
  | .jstr s => set.contains s
  | _ => false

/-- A dict comprehension `{item[key]: item[val] for item in seq}` over a
parsed JSON value `seq` (migration.py:1411-1420).  Exceptions the
comprehension would raise (non-iterable `seq`, element without the key)
surface as `.error`.  A repeated key keeps the value of the LAST matching
item, as Python dict assignment does. -/
def dictComp (seq : JVal) (key val : String) : Except PyExc (List (JVal × JVal)) := do
  let items ← pyIter seq
  items.foldlM (fun m it => do
    let k ← jindex it key
    let v ← jindex it val
    pure (alistInsert m k v)) []

/-- The value the last item of `items` with key-field `k` assigns (used to
characterise `dictComp`): later items take precedence over earlier ones. -/
def lastValueFor (items : List JVal) (key val : String) (k : JVal) : Option JVal :=
  match items with
  | [] => none
  | it :: rest =>
    (lastValueFor rest key val k).or
      (match jindex it key, jindex it val with
       | .ok k', .ok v => if k' == k then some v else none
       | _, _ => none)

theorem dictComp_foldAux (key val : String) (k : JVal) :
    ∀ (items : List JVal) (acc m : List (JVal × JVal)),
      (items.foldlM (fun m it => do
        let k ← jindex it key
        let v ← jindex it val
        pure (alistInsert m k v)) acc : Except PyExc _) = .ok m →
      alookup m k = (lastValueFor items key val k).or (alookup acc k) := by
  intro items
  induction items with
  | nil =>
    intro acc m h
    simp [List.foldlM, pure, Except.pure] at h
    simp [← h, lastValueFor]
  | cons it rest ih =>
    intro acc m h
    simp only [List.foldlM] at h
    match hk : jindex it key with
    | .error e => rw [hk] at h; simp [Bind.bind, Except.bind] at h
    | .ok k₀ =>
      match hv : jindex it val with
      | .error e => rw [hk, hv] at h; simp [Bind.bind, Except.bind] at h
      | .ok v =>
        rw [hk, hv] at h
        simp only [Bind.bind, Except.bind, pure, Except.pure] at h
        have hrec := ih (alistInsert acc k₀ v) m h
        have hins := alookup_insert acc k₀ k v
        rw [lastValueFor]
        simp only [hk, hv]
        by_cases hkeq : k = k₀
        · subst hkeq
          simp [hrec, hins, Option.or_assoc]
        · have h1 : (k == k₀) = false := by simp [hkeq]
          have h2 : (k₀ == k) = false := by
            simp only [beq_eq_false_iff_ne, ne_eq]
            exact fun he => hkeq he.symm
          simp [hrec, hins, h1, h2]

/-- `dictComp` keeps the LAST occurrence per key: the resulting dict maps `k`
to the value of the last item whose key-field equals `k`. -/
theorem dictComp_last (seq : JVal) (key val : String) (m : List (JVal × JVal))
    (items : List JVal) (hit : pyIter seq = .ok items)
    (h : dictComp seq key val = .ok m) (k : JVal) :
    alookup m k = lastValueFor items key val k := by
  unfold dictComp at h
  rw [hit] at h
  simp only [Bind.bind, Except.bind] at h
  have h2 := dictComp_foldAux key val k items [] m h
  rw [h2]
  cases lastValueFor items key val k <;> rfl

/-! ## SisenseClient._make_request (src/pysisense/sisenseclient.py:271-348) -/

/-- Outcome of one HTTP exchange attempted by the `requests` library: either a
completed response (any status code) or a raised
`requests.exceptions.RequestException`. -/
inductive TransportOutcome where
  | completed : Resp → TransportOutcome
  | requestExc : String → TransportOutcome

/-- The network as seen by `_make_request`: method, full URL and JSON body
determine the outcome. -/
structure HttpEnv where
  transport : String → String → Option JVal → TransportOutcome

/-- `SisenseClient._make_request`.  `.error` models the uncaught `ValueError`
for unsupported methods (raised inside the `try`, but `except` only catches
`RequestException`); `.ok none` is the caught transport failure; `.ok (some r)`
is every completed exchange.  The status-code `if` chain at lines 321-339 only
chooses a log level and never changes the returned value, so it is not
reproduced. -/
def make_request (env : HttpEnv) (method base_url endpoint : String)
    (data : Option JVal) : Except PyExc (Option Resp) :=
  let url := base_url ++ endpoint
  if method = "GET" ∨ method = "POST" ∨ method = "PUT" ∨ method = "PATCH"
      ∨ method = "DELETE" then
    match env.transport method url data with
    | .completed r => .ok (some r)
    | .requestExc _ => .ok none
  else
    .error (.valueError ("Unsupported HTTP method: " ++ method))

/-! ## utils.convert_utc_to_local (src/pysisense/utils.py:73-92) -/

/-- `utils.convert_utc_to_local`.  The body of the `try` block
(`datetime.fromisoformat`, `astimezone`, `strftime`) is the oracle
`pipeline`: `.ok s` is the formatted local-time string, `.error e` models any
exception raised inside the `try` (caught by the bare `except Exception`).
The input domain is `String`; `if not utc_str` is the empty-string test. -/
def convert_utc_to_local (pipeline : String → Except String String)
    (utc_str : String) : Option String :=
  if utc_str = "" then none
  else
    match pipeline (utc_str.replace "Z" "+00:00") with
    | .ok localFormatted => some localFormatted
    | .error e => some ("Invalid timestamp: " ++ utc_str ++ " - " ++ e)

/-! ## Migration.migrate_all_users: target maps and bulk payload
    (src/pysisense/migration.py:1145-1232) -/

/-- `EXCLUDED_GROUPS` of `migrate_all_users`/`migrate_users`
(migration.py:1172, 748). -/
def EXCLUDED_GROUPS : List String := ["Everyone", "All users in system"]

/-- The role/group `name -> _id` dictionaries of `migrate_all_users`
(migration.py:1146-1158): iterate the target listing, keep entries whose
`name` and `_id` are truthy.  Plain dict assignment, so a repeated name keeps
the id of the LAST occurrence.  A non-dict element raises (`.get` on it) and
propagates out of the method. -/
def buildNameIdMap (items : List JVal) : Except PyExc (List (JVal × JVal)) :=
  items.foldlM (fun m r =>
    match r with
    | .jobj _ =>
      let name := r.get "name"
      let rid := r.get "_id"
      pure (if name.truthy && rid.truthy then alistInsert m name rid else m)
    | _ => .error (.attributeError "r.get on non-dict listing element")) []

/-- `[g.get("name") for g in (user.get("groups") or []) if g and g.get("name")]`
wrapped in `try/except Exception: user_group_names = []`
(migration.py:1207-1211).  Any raising shape (non-iterable `groups`, a truthy
non-dict element, dict/string iteration hitting `.get` on a str) ends as `[]`
because of the blanket except. -/
def userGroupNames (user : JVal) : List JVal :=
  let groups := user.get "groups"
  let seq := if groups.truthy then groups else JVal.jarr []
  match seq with
  | .jarr gs =>
    if gs.all (fun g => !g.truthy || g.isObj) then
      gs.filterMap (fun g =>
        if g.truthy && (g.get "name").truthy then some (g.get "name") else none)
    else []
  | _ => []

/-- The group-mapping loop of `migrate_all_users` (migration.py:1213-1221):
drops excluded group names, maps the rest through the target dict, counts
every unresolved (falsy) mapping in `missing_group_mappings_count`.
Returns `(mapped_group_ids, missing_group_mappings added)`. -/
def mapUserGroups (group_name_to_id : List (JVal × JVal)) (gnames : List JVal) :
    List JVal × Nat :=
  gnames.foldl (fun (p : List JVal × Nat) gname =>
    if jvalInStrSet gname EXCLUDED_GROUPS then p
    else
      let gid := jget group_name_to_id gname
      if gid.truthy then (p.1 ++ [gid], p.2) else (p.1, p.2 + 1)) ([], 0)

/-- Accumulator of the payload-building loop of `migrate_all_users`
(migration.py:1173-1232). -/
structure UserPayloadAcc where
  bulk : List JVal := []
  warnings : List String := []
  skipped_super_count : Nat := 0
  skipped_multi_tenant_count : Nat := 0
  missing_role_mappings_count : Nat := 0
  missing_group_mappings_count : Nat := 0
deriving DecidableEq

/-- One iteration of the `for user in source_users` loop of
`migrate_all_users` (migration.py:1182-1232). -/
def processUser (system_tenant_id : JVal)
    (role_name_to_id group_name_to_id : List (JVal × JVal))
    (acc : UserPayloadAcc) (user : JVal) : Except PyExc UserPayloadAcc := do
  if !user.isObj then
    throw (.attributeError "user.get on non-dict source user")
  let tenant_id := user.get "tenantId"
  if tenant_id != system_tenant_id then
    return { acc with
      skipped_multi_tenant_count := acc.skipped_multi_tenant_count + 1 }
  let role := if (user.get "role").truthy then user.get "role" else JVal.jobj []
  let role_name ←
    match role with
    | .jobj _ => pure (role.get "name")
    | _ => throw (.attributeError "role.get on non-dict role")
  if role_name == JVal.jstr "super" then
    return { acc with skipped_super_count := acc.skipped_super_count + 1 }
  let email := user.get "email"
  let first_name := user.get "firstName"
  if !email.truthy || !first_name.truthy then
    return { acc with warnings := acc.warnings ++
      ["Skipped a user record with missing required fields (email/firstName)."] }
  let role_id := jget role_name_to_id role_name
  let acc1 :=
    if !role_id.truthy then
      { acc with missing_role_mappings_count := acc.missing_role_mappings_count + 1 }
    else acc
  let mg := mapUserGroups group_name_to_id (userGroupNames user)
  let user_data := JVal.jobj
    [("email", email), ("firstName", first_name),
     ("lastName", user.getD "lastName" (JVal.jstr "")),
     ("roleId", role_id),
     ("groups", JVal.jarr mg.1),
     ("preferences", user.getD "preferences"
        (JVal.jobj [("localeId", JVal.jstr "en-US")]))]
  return { acc1 with
    bulk := acc1.bulk ++ [user_data],
    missing_group_mappings_count := acc1.missing_group_mappings_count + mg.2 }

/-- Step 3 of `migrate_all_users` (migration.py:1182-1234): build the bulk
payload from all source users. -/
def buildUserBulkPayload (system_tenant_id : JVal)
    (role_name_to_id group_name_to_id : List (JVal × JVal))
    (source_users : List JVal) : Except PyExc UserPayloadAcc :=
  source_users.foldlM (processUser system_tenant_id role_name_to_id group_name_to_id) {}

/-! ## Migration.migrate_users: per-user groups payload
    (src/pysisense/migration.py:748-771) -/

/-- The `"groups"` list comprehension of `migrate_users`
(migration.py:763-766):
`[group["_id"] for group in target_groups
   if group["name"] in [g["name"] for g in user["groups"]]
   and group["name"] not in EXCLUDED_GROUPS]`.
The inner comprehension is (re)evaluated inside the condition, so a missing
`"groups"`/`"name"` key raises only once a target group is examined. -/
def migrateUsersGroupsStep (user : JVal) (out : List JVal) (group : JVal) :
    Except PyExc (List JVal) := do
  let name ← jindex group "name"
  let ugroups ← jindex user "groups"
  let gitems ← pyIter ugroups
  let inner ← gitems.mapM (fun g => jindex g "name")
  if inner.contains name && !(jvalInStrSet name EXCLUDED_GROUPS) then
    let gid ← jindex group "_id"
    pure (out ++ [gid])
  else
    pure out

def migrateUsersGroupsField (target_groups : List JVal) (user : JVal) :
    Except PyExc (List JVal) :=
  target_groups.foldlM (migrateUsersGroupsStep user) []

/-! ## Migration.migrate_all_groups: group filtering
    (src/pysisense/migration.py:522-548) -/

/-- `excluded_names` of `migrate_all_groups` (migration.py:523). -/
def excluded_group_names : List String := ["Admins", "All users in system", "Everyone"]

/-- Accumulator of the group-filter loop (migration.py:524-548). -/
structure GroupFilterAcc where
  bulk_group_data : List JVal := []
  skipped_count : Nat := 0
  skipped_multi_tenant_count : Nat := 0
deriving DecidableEq

/-- One iteration of the `for group in source_groups` loop of
`migrate_all_groups` (migration.py:530-548).  A non-dict element raises
(`.get` on it). -/
def processGroup (system_tenant_id : JVal) (acc : GroupFilterAcc) (group : JVal) :
    Except PyExc GroupFilterAcc :=
  match group with
  | .jobj fs =>
    let name := (JVal.jobj fs).get "name"
    if !name.truthy then
      .ok { acc with skipped_count := acc.skipped_count + 1 }
    else if jvalInStrSet name excluded_group_names then
      .ok { acc with skipped_count := acc.skipped_count + 1 }
    else if (JVal.jobj fs).get "tenantId" != system_tenant_id then
      .ok { acc with
        skipped_multi_tenant_count := acc.skipped_multi_tenant_count + 1 }
    else
      .ok { acc with bulk_group_data := acc.bulk_group_data ++
        [JVal.jobj (fs.filter fun p =>
          !(["created", "lastUpdated", "tenantId", "_id"].contains p.1))] }
  | _ => .error (.attributeError "group.get on non-dict source group")

/-- Step 2 of `migrate_all_groups` (migration.py:522-550). -/
def migrateAllGroupsFilter (system_tenant_id : JVal) (source_groups : List JVal) :
    Except PyExc GroupFilterAcc :=
  source_groups.foldlM (processGroup system_tenant_id) {}

/-! ## Migration.migrate_datamodels: name resolution
    (src/pysisense/migration.py:3119-3281) -/

/-- A succeeded/skipped/failed entry of the migration summaries.  The Python
dicts use slightly different key subsets per list; fields the code omits are
`none` here. -/
structure MigItem where
  title : Option String := none
  source_id : Option String := none
  target_id : Option String := none
  reason : Option String := none
deriving DecidableEq, Repr

/-- `for key in (...): v = payload.get(key); if isinstance(v, list): items = v; break`
— the items-extraction idiom used by the pagination loops
(migration.py:3202-3210, 1972-1980, 2629-2637). -/
def firstListField (fs : List (String × JVal)) (keys : List String) : List JVal :=
  match keys with
  | [] => []
  | k :: rest =>
    match fs.lookup k with
    | some (.jarr xs) => xs
    | _ => firstListField fs rest

/-- Items of a page payload: a JSON list is used directly, a dict is probed
for the listed keys, anything else yields no items. -/
def pageItems (payload : Option JVal) (keys : List String) : List JVal :=
  match payload with
  | some (.jarr xs) => xs
  | some (.jobj fs) => firstListField fs keys
  | _ => []

/-- One datamodel item of the resolve scan (migration.py:3218-3233): non-dict
items and items without string `title`/`oid` are skipped; unwanted titles are
skipped; a title already resolved only bumps `duplicate_titles`; otherwise the
FIRST occurrence is recorded in `found_title_to_oid`.
State is `(found_title_to_oid, duplicate_titles)`. -/
def scanDmItem (names : List String)
    (fd : List (String × String) × List (String × Nat)) (dm : JVal) :
    List (String × String) × List (String × Nat) :=
  match dm with
  | .jobj _ =>
    match (dm.get "title").asStr, (dm.get "oid").asStr with
    | some t, some oid =>
      if !names.contains t then fd
      else if (alookup fd.1 t).isSome then
        (fd.1, alistInsert fd.2 t ((alookup fd.2 t).getD 1 + 1))
      else (alistInsert fd.1 t oid, fd.2)
    | _, _ => fd
  | _ => fd

/-- The oid one scanned item contributes for wanted title `t`, when it is a
dict with string title/oid fields, its title is wanted and equals `t`. -/
def dmHeadOid (names : List String) (t : String) (dm : JVal) : Option String :=
  match dm with
  | .jobj _ =>
    match (dm.get "title").asStr, (dm.get "oid").asStr with
    | some t', some oid =>
      if names.contains t' ∧ t' = t then some oid else none
    | _, _ => none
  | _ => none

/-- The oid of the FIRST scanned item carrying wanted title `t` (used to
characterise the resolve scan). -/
def firstTitleOid (names : List String) (items : List JVal) (t : String) :
    Option String :=
  match items with
  | [] => none
  | dm :: rest => (dmHeadOid names t dm).or (firstTitleOid names rest t)

/-- The pagination loop of the name-resolve step of `migrate_datamodels`
(migration.py:3133-3241), driven by the finite list of successive
`/api/v2/datamodels/schema` responses a run observes (`limit` is 100).
`.error ()` is the hard-failure return taken when the very first page has no
200 response (migration.py:3158-3181).  Exhaustion of the page list behaves
like a missing response.  Besides `(found_title_to_oid, duplicate_titles)`
the embedding also returns the list of items scanned, in order, for use in
statements (`found_title_to_type` feeds no claim and is omitted). -/
def dmResolveLoop (names : List String) (pages : List (Option Resp))
    (found : List (String × String)) (dups : List (String × Nat))
    (scanned : List JVal) (pagesFetched : Nat) :
    Except Unit (List (String × String) × List (String × Nat) × List JVal) :=
  match pages with
  | [] =>
    if pagesFetched = 0 then .error () else .ok (found, dups, scanned)
  | none :: _ =>
    if pagesFetched = 0 then .error () else .ok (found, dups, scanned)
  | some r :: rest =>
    if r.status_code ≠ 200 then
      if pagesFetched = 0 then .error () else .ok (found, dups, scanned)
    else
      let payload := (safeJson (some r)).1
      let items := pageItems payload ["items", "datamodels", "results", "data"]
      if items.isEmpty then .ok (found, dups, scanned)
      else
        let fd := items.foldl (scanDmItem names) (found, dups)
        let scanned := scanned ++ items
        if items.length < 100 then .ok (fd.1, fd.2, scanned)
        else if names ≠ [] ∧ names.dedup.length ≤ fd.1.length then
          .ok (fd.1, fd.2, scanned)
        else dmResolveLoop names rest fd.1 fd.2 scanned (pagesFetched + 1)

/-- The unresolved-name bookkeeping after the resolve loop
(migration.py:3261-3266): every requested name that was not resolved is
appended to the `failed` list. -/
def dmResolveFailed (names : List String) (found : List (String × String)) :
    List MigItem :=
  names.filterMap (fun name =>
    if (alookup found name).isSome then none
    else some { title := some name,
                reason := some ("Datamodel '" ++ name ++ "' not found in source.") })

/-! ## Migration.migrate_dashboard_shares (src/pysisense/migration.py:1377-1739) -/

/-- `d.get(k, dflt)` on a Python dict with JSON keys. -/
def jgetD (m : List (JVal × JVal)) (k : JVal) (dflt : JVal) : JVal :=
  (alookup m k).getD dflt

/-- `x.get(k)`: `AttributeError` when `x` is not a dict. -/
def pyGetAttr (j : JVal) (k : String) : Except PyExc JVal :=
  match j with
  | .jobj _ => .ok (j.get k)
  | _ => .error (.attributeError (".get on non-dict while reading " ++ k))

/-- `resp.json()` where `resp` may be `None`: `AttributeError` on `None`,
`JSONDecodeError` (a `ValueError` subclass, but distinguished here) when the
body does not parse.  Used for the calls the source makes with NO
`try/except` or status guard absorbing the exception. -/
def respJsonTry (r : Option Resp) : Except PyExc JVal :=
  match r with
  | none => .error (.attributeError ".json on None")
  | some r =>
    match r.json with
    | some j => .ok j
    | none => .error (.jsonError ("invalid JSON: " ++ truncate r.text))

/-- The remote endpoints `migrate_dashboard_shares` touches. -/
structure ShareEnv where
  sourceUsers : Option Resp
  sourceGroups : Option Resp
  targetUsers : Option Resp
  targetGroups : Option Resp
  sourceShares : String → Option Resp
  targetSharesAdmin : String → Option Resp
  targetSharesPlain : String → Option Resp
  postSharesAdmin : String → JVal → Option Resp
  postSharesPlain : String → JVal → Option Resp
  changeOwnerAdmin : String → JVal → Option Resp
  changeOwnerPlain : String → JVal → Option Resp

/-- The user/group lookup maps of step 1 (migration.py:1409-1424). -/
structure ShareMaps where
  source_user_map : List (JVal × JVal)
  source_group_map : List (JVal × JVal)
  target_user_map : List (JVal × JVal)
  target_group_map : List (JVal × JVal)
  user_mapping : List (JVal × JVal)
  group_mapping : List (JVal × JVal)
deriving DecidableEq

/-- `share_migration_summary` (migration.py:1405). -/
structure ShareSummary where
  new_share_success_count : Nat := 0
  share_fail_count : Nat := 0
  failed_dashboards : List (String × String) := []
deriving DecidableEq, Repr

/-- One `dashboard_results` entry (migration.py:1525-1531, 1665-1670). -/
structure ShareDashResult where
  source_id : String
  target_id : String
  shares_added : Nat
  status : String
  reason : Option String := none
deriving DecidableEq, Repr

/-- Return value of `migrate_dashboard_shares`: the early `return
share_migration_summary` at migration.py:1427 returns the bare summary dict,
while the normal path (migration.py:1732-1739) returns the
`{"summary": ..., "dashboard_results": ...}` shape (`failed_dashboards` is
only logged, never returned). -/
inductive ShareReturn where
  | earlySummary (s : ShareSummary)
  | result (total_dashboard_count total_share_success_count total_share_fail_count : Nat)
      (dashboard_results : List ShareDashResult)
deriving DecidableEq

/-- Step 1 of `migrate_dashboard_shares` (migration.py:1409-1427): fetch the
four listings and build the id/e-mail/name maps with dict comprehensions.
The whole step sits in `try/except Exception`, so any raise collapses to
`none` (and the method then early-returns the untouched summary). -/
def buildShareMaps (env : ShareEnv) : Option ShareMaps :=
  (do
    let su ← respJsonTry env.sourceUsers
    let source_user_map ← dictComp su "_id" "email"
    let sg ← respJsonTry env.sourceGroups
    let source_group_map ← dictComp sg "_id" "name"
    let tu ← respJsonTry env.targetUsers
    let target_user_map ← dictComp tu "email" "_id"
    let tg ← respJsonTry env.targetGroups
    let target_group_map ← dictComp tg "name" "_id"
    let user_mapping := source_user_map.map (fun p => (p.1, jget target_user_map p.2))
    let group_mapping := source_group_map.map (fun p => (p.1, jget target_group_map p.2))
    pure { source_user_map, source_group_map, target_user_map, target_group_map,
           user_mapping, group_mapping : ShareMaps }
    : Except PyExc ShareMaps).toOption

/-- The prepared-share loop (migration.py:1466-1495): user/group shares whose
id maps to a truthy target id become payload entries; shares whose id has NO
target mapping are silently not appended (no counter, no log, no summary
entry records them). -/
def prepareNewShares (maps : ShareMaps) (dashboard_shares : List JVal) :
    Except PyExc (List JVal) :=
  dashboard_shares.foldlM (fun (ns : List JVal) share => do
    let stype ← jindex share "type"
    if stype == JVal.jstr "user" then do
      let sid ← jindex share "shareId"
      let new_share_user_id := jget maps.user_mapping sid
      let user_email := jgetD maps.source_user_map sid (JVal.jstr "Unknown User")
      if new_share_user_id.truthy then
        pure (ns ++ [JVal.jobj
          [("shareId", new_share_user_id), ("type", JVal.jstr "user"),
           ("rule", share.getD "rule" (JVal.jstr "edit")),
           ("subscribe", share.getD "subscribe" (JVal.jbool false)),
           ("userName", user_email)]])
      else pure ns
    else if stype == JVal.jstr "group" then do
      let sid ← jindex share "shareId"
      let new_share_group_id := jget maps.group_mapping sid
      let group_name := jgetD maps.source_group_map sid (JVal.jstr "Unknown Group")
      if new_share_group_id.truthy then
        pure (ns ++ [JVal.jobj
          [("shareId", new_share_group_id), ("type", JVal.jstr "group"),
           ("rule", share.getD "rule" (JVal.jstr "viewer")),
           ("subscribe", share.getD "subscribe" (JVal.jbool false)),
           ("name", group_name)]])
      else pure ns
    else pure ns) []

/-- `existing_shares` as a Python list (migration.py:1554-1617).  If
`sharesTo` parses to anything but a list the method raises somewhere: a
non-empty dict or string raises `AttributeError` in the key-building loops
(`share.get` on a str), an empty dict/string raises `TypeError` at the list
concatenation `existing_shares + final_new_shares`, and other scalars raise
`TypeError` when first iterated. -/
def existingSharesList (existing : JVal) : Except PyExc (List JVal) :=
  match existing with
  | .jarr xs => .ok xs
  | .jobj fs =>
    if fs.isEmpty then .error (.typeError "can only concatenate dict + list")
    else .error (.attributeError "str has no attribute get")
  | .jstr s =>
    if s.isEmpty then .error (.typeError "can only concatenate str + list")
    else .error (.attributeError "str has no attribute get")
  | _ => .error (.typeError "not iterable")

/-- Add to the Python `set` of share keys (only membership is observable). -/
def insertKey (ks : List String) (k : String) : List String :=
  if ks.contains k then ks else ks ++ [k]

/-- `existing_share_keys` (migration.py:1572-1577).  The earlier
`simplified_existing` debug loop (1556-1567) reads the same attributes of the
same elements, so any exception it would raise is raised here at the same
element. -/
def existingShareKeys (existing_list : List JVal) : Except PyExc (List String) :=
  existing_list.foldlM (fun (ks : List String) share => do
    let t ← pyGetAttr share "type"
    if t == JVal.jstr "user" then
      pure (insertKey ks ("user:" ++ (share.get "userName").pyStr))
    else if t == JVal.jstr "group" then
      pure (insertKey ks ("group:" ++ (share.get "name").pyStr))
    else pure ks) []

/-- De-duplication of prepared shares against the target's existing shares
(migration.py:1580-1589); entries of `new_shares` are dicts built by
`prepareNewShares`, so the `.get`s cannot raise. -/
def filterNewShares (new_shares : List JVal) (existing_keys : List String) :
    List JVal :=
  new_shares.filterMap (fun share =>
    let t := share.get "type"
    if t == JVal.jstr "user" then
      let key := "user:" ++ (share.get "userName").pyStr
      if existing_keys.contains key then none else some share
    else if t == JVal.jstr "group" then
      let key := "group:" ++ (share.get "name").pyStr
      if existing_keys.contains key then none else some share
    else none)

/-- Strip the comparison-only keys before posting (migration.py:1607-1614);
the indexed keys are present by construction of `prepareNewShares`. -/
def finalNewShares (filtered : List JVal) : List JVal :=
  filtered.map (fun share => JVal.jobj
    [("shareId", share.get "shareId"), ("type", share.get "type"),
     ("rule", share.get "rule"),
     ("subscribe", share.getD "subscribe" (JVal.jbool false))])

/-- `x.get(k, dflt)`: `AttributeError` when `x` is not a dict. -/
def pyGetAttrD (j : JVal) (k : String) (dflt : JVal) : Except PyExc JVal :=
  match j with
  | .jobj _ => .ok (j.getD k dflt)
  | _ => .error (.attributeError (".get on non-dict while reading " ++ k))

/-- Per-dashboard processing from the target-shares fetch onward
(migration.py:1554-1728), given the chosen target response (which has status
200 by the selection logic).  The ownership-change POSTs (1699-1728) only log
their outcome, so their responses have no observable effect here; the only
behaviour of that block is the possible `AttributeError` at line 1685 when
the target owner field is not a dict. -/
def shareTargetPhase (env : ShareEnv) (change_ownership : Bool)
    (source_id target_id : String) (summary : ShareSummary)
    (results : List ShareDashResult) (new_shares : List JVal)
    (potential_owner_id : JVal) (chosen : Resp) :
    Except PyExc (ShareSummary × List ShareDashResult) := do
  let ejson ← respJsonTry (some chosen)
  let existingJ ← pyGetAttrD ejson "sharesTo" (JVal.jarr [])
  let existing_list ← existingSharesList existingJ
  let existing_keys ← existingShareKeys existing_list
  let filtered := filterNewShares new_shares existing_keys
  let all_shares := existing_list ++ finalNewShares filtered
  if all_shares.isEmpty then
    pure (summary, results)
  else do
    let payload := JVal.jobj [("sharesTo", JVal.jarr all_shares)]
    let response :=
      match env.postSharesAdmin target_id payload with
      | some pr =>
        if pr.status_code = 403 then env.postSharesPlain target_id payload
        else some pr
      | none => none
    let success :=
      match response with
      | some pr => pr.status_code == 200 || pr.status_code == 201
      | none => false
    let summary' :=
      if success then
        { summary with new_share_success_count :=
            summary.new_share_success_count + filtered.length }
      else
        { summary with
            share_fail_count := summary.share_fail_count + filtered.length,
            failed_dashboards := summary.failed_dashboards ++ [(source_id, target_id)] }
    let results' := results ++ [{
      source_id, target_id, shares_added := filtered.length,
      status := if success then "Success" else "Failed" }]
    if change_ownership && potential_owner_id.truthy then do
      let target_owner_field := ejson.getD "owner" (JVal.jobj [])
      let _current ← pyGetAttr target_owner_field "_id"
      pure (summary', results')
    else
      pure (summary', results')

/-- One iteration of the per-dashboard loop of `migrate_dashboard_shares`
(migration.py:1430-1728). -/
def processShareDashboard (env : ShareEnv) (maps : ShareMaps)
    (change_ownership : Bool) (st : ShareSummary × List ShareDashResult)
    (pair : String × String) :
    Except PyExc (ShareSummary × List ShareDashResult) := do
  let (source_id, target_id) := pair
  let (summary, results) := st
  let failSrc : ShareSummary :=
    { summary with failed_dashboards := summary.failed_dashboards ++ [(source_id, target_id)] }
  match env.sourceShares source_id with
  | none => pure (failSrc, results)
  | some r =>
    if r.status_code ≠ 200 then
      pure (failSrc, results)
    else do
      let response_json ← respJsonTry (some r)
      let sharesToJ ← pyGetAttrD response_json "sharesTo" (JVal.jarr [])
      if !sharesToJ.truthy then
        pure (summary, results)
      else do
        let dashboard_shares ← pyIter sharesToJ
        -- `response_json` is a dict here (the `.get` above succeeded)
        let owner_field := response_json.getD "owner" (JVal.jobj [])
        let source_owner_id ← pyGetAttr owner_field "_id"
        let potential_owner_id := jget maps.user_mapping source_owner_id
        let new_shares ← prepareNewShares maps dashboard_shares
        let failTgt : ShareSummary :=
          { summary with
              failed_dashboards := summary.failed_dashboards ++ [(source_id, target_id)],
              share_fail_count := summary.share_fail_count + new_shares.length }
        let skippedResults : List ShareDashResult :=
          results ++ [{ source_id, target_id, shares_added := 0, status := "Skipped",
                        reason := some "Target dashboard not found or inaccessible" }]
        match env.targetSharesAdmin target_id with
        | none => pure (failTgt, results)
        | some tr0 =>
          if tr0.status_code = 403 then
            match env.targetSharesPlain target_id with
            | some tr2 =>
              if tr2.status_code = 200 then
                shareTargetPhase env change_ownership source_id target_id
                  summary results new_shares potential_owner_id tr2
              else
                pure (failTgt, skippedResults)
            | none => pure (failTgt, skippedResults)
          else if tr0.status_code = 200 then
            shareTargetPhase env change_ownership source_id target_id
              summary results new_shares potential_owner_id tr0
          else
            pure (failTgt, results)

/-- `Migration.migrate_dashboard_shares` (migration.py:1377-1739). -/
def migrate_dashboard_shares (env : ShareEnv)
    (source_dashboard_ids target_dashboard_ids : List String)
    (change_ownership : Bool := false) : Except PyExc ShareReturn :=
  if source_dashboard_ids.isEmpty || target_dashboard_ids.isEmpty then
    .error (.valueError
      "Both 'source_dashboard_ids' and 'target_dashboard_ids' must be provided.")
  else if source_dashboard_ids.length ≠ target_dashboard_ids.length then
    .error (.valueError
      "The lengths of 'source_dashboard_ids' and 'target_dashboard_ids' must match.")
  else
    match buildShareMaps env with
    | none => .ok (.earlySummary {})
    | some maps =>
      (source_dashboard_ids.zip target_dashboard_ids).foldlM
          (processShareDashboard env maps change_ownership) ({}, []) >>= fun st =>
        .ok (.result source_dashboard_ids.length
          st.1.new_share_success_count st.1.share_fail_count st.2)

/-! ## Migration.migrate_dashboards (src/pysisense/migration.py:1741-2460) -/

/-- The remote endpoints `migrate_dashboards` touches.  `adminPages` is the
finite list of successive `/api/v1/dashboards/admin` responses a run observes
(names path); `bulkImport` is keyed by the `republish`/`action` query
parameters and the JSON payload. -/
structure DashEnv where
  exportAdmin : String → Option Resp
  exportPlain : String → Option Resp
  adminPages : List (Option Resp)
  bulkImport : Bool → Option String → List JVal → Option Resp
  shares : ShareEnv

/-- `meta` of the `migrate_dashboards` summary (migration.py:1853-1860). -/
structure DashMeta where
  export_requested : Nat := 0
  export_succeeded : Nat := 0
  export_failed : Nat := 0
  bulk_status_code : Option Int := none
  bulk_request_failed : Bool := false
  bulk_request_reason : Option String := none
deriving DecidableEq, Repr

/-- The `migrate_dashboards` summary (migration.py:1849-1861). -/
structure DashSummary where
  succeeded : List MigItem := []
  skipped : List MigItem := []
  failed : List MigItem := []
  meta : DashMeta := {}
deriving DecidableEq, Repr

/-- `resp.status_code if resp else None` rendered into an f-string — note the
Python truthiness quirk: a completed 4xx/5xx response is falsy and prints as
`None` (migration.py:206-207). -/
def exportStatusStr (r : Option Resp) : String :=
  match r with
  | some resp => if resp.ok then toString resp.status_code else "None"
  | none => "None"

/-- `a or dflt` on strings (empty string is falsy). -/
def pyOrStr (a : Option String) (dflt : String) : String :=
  match a with
  | some s => if s = "" then dflt else s
  | none => dflt

/-- Fallback half of `Migration._export_dashboard` (migration.py:195-208). -/
def exportFallback (env : DashEnv) (oid : String) (resp : Option Resp) :
    Option JVal × Option String :=
  let resp2 := env.exportPlain oid
  let failMsg := some ("Export failed (adminAccess=" ++ exportStatusStr resp
    ++ ", fallback=" ++ exportStatusStr resp2 ++ ")")
  match resp2 with
  | some r2 =>
    if r2.status_code = 200 then
      match r2.json with
      | some j =>
        if j.isObj then (some j, none)
        else (none, some "Export returned non-dict JSON (fallback path)")
      | none =>
        (none, some ("Export returned invalid JSON (fallback path): " ++ truncate r2.text))
    else (none, failMsg)
  | none => (none, failMsg)

/-- `Migration._export_dashboard` (migration.py:179-208): try
`adminAccess=true`, else fall back without it.  Returns
`(exported_json, error_reason)`. -/
def exportDashboard (env : DashEnv) (oid : String) : Option JVal × Option String :=
  let resp := env.exportAdmin oid
  match resp with
  | some r =>
    if r.status_code = 200 then
      match r.json with
      | some j =>
        if j.isObj then (some j, none)
        else (none, some "Export returned non-dict JSON")
      | none => (none, some ("Export returned invalid JSON: " ++ truncate r.text))
    else exportFallback env oid resp
  | none => exportFallback env oid resp

/-- One iteration of the export-by-ids loop (migration.py:1882-1920).
State: `(bulk_dashboard_data, source_id_to_title, summary)`. -/
def exportIdsStep (env : DashEnv)
    (st : List JVal × List (String × String) × DashSummary) (oid : String) :
    List JVal × List (String × String) × DashSummary :=
  let (bulk, idToTitle, summary) := st
  let meta := { summary.meta with export_requested := summary.meta.export_requested + 1 }
  match exportDashboard env oid with
  | (some doc, _) =>
    let titleStr :=
      match (doc.get "title").asStr with
      | some s => s
      | none => oid
    (bulk ++ [doc], alistInsert idToTitle oid titleStr,
     { summary with meta := { meta with export_succeeded := meta.export_succeeded + 1 } })
  | (none, err) =>
    (bulk, idToTitle,
     { summary with
         meta := { meta with export_failed := meta.export_failed + 1 },
         failed := summary.failed ++
           [{ title := none, source_id := some oid, reason := some (pyOrStr err "Export failed") }] })

/-- The names-path pagination loop (migration.py:1945-1987); exhaustion of
the observed response list behaves like a missing response (break). -/
def dashNamesPages (pages : List (Option Resp)) (acc : List JVal) : List JVal :=
  match pages with
  | [] => acc
  | p :: rest =>
    match p with
    | none => acc
    | some r =>
      if r.status_code ≠ 200 then acc
      else
        let payload := (safeJson (some r)).1
        let items := pageItems payload ["items", "dashboards", "results", "data"]
        if items.isEmpty then acc
        else dashNamesPages rest (acc ++ items)

/-- `unique = {d.get("oid"): d for d in dashboards if d.get("oid")};
dashboards = list(unique.values())` (migration.py:2001-2002).  A non-dict
element raises (`.get` on it) and propagates out of the method. -/
def dedupByOid (dashboards : List JVal) : Except PyExc (List JVal) := do
  let m ← dashboards.foldlM (fun (m : List (JVal × JVal)) d => do
    let oid ← pyGetAttr d "oid"
    pure (if oid.truthy then alistInsert m oid d else m)) []
  pure (m.map (·.2))

/-- One iteration of the export-by-names loop (migration.py:2016-2061); the
elements are dicts (they survived `dedupByOid`).  Source oids from JSON are
rendered with `str` for URL/dict-key use (they are strings on a real
platform). -/
def exportNamesStep (env : DashEnv) (wanted : List String)
    (st : List JVal × List (String × String) × DashSummary) (d : JVal) :
    List JVal × List (String × String) × DashSummary :=
  let (bulk, idToTitle, summary) := st
  let title := d.get "title"
  let oid := d.get "oid"
  if !oid.truthy then st
  else
    match title.asStr with
    | none => st
    | some t =>
      if !wanted.contains t then st
      else
        let meta := { summary.meta with export_requested := summary.meta.export_requested + 1 }
        match exportDashboard env oid.pyStr with
        | (some doc, _) =>
          (bulk ++ [doc], alistInsert idToTitle oid.pyStr t,
           { summary with meta := { meta with export_succeeded := meta.export_succeeded + 1 } })
        | (none, err) =>
          (bulk, idToTitle,
           { summary with
               meta := { meta with export_failed := meta.export_failed + 1 },
               failed := summary.failed ++
                 [{ title := some t, source_id := some oid.pyStr,
                    reason := some (pyOrStr err "Export failed") }] })

/-- Request-level error message extraction (migration.py:2124-2129). -/
def msgFromPayload (resp_json : Option JVal) : Option String :=
  match resp_json with
  | some (JVal.jobj fs) =>
    match fs.lookup "message" with
    | some (JVal.jstr s) => some s
    | _ =>
      match fs.lookup "error" with
      | some (JVal.jobj efs) =>
        match efs.lookup "message" with
        | some (JVal.jstr s) => some s
        | _ => none
      | _ => none
  | _ => none

/-- `resp.status_code if resp else None` (migration.py:2113), with the Python
truthiness quirk: a completed 4xx/5xx response records `None`. -/
def bulkStatusCode (resp : Option Resp) : Option Int :=
  match resp with
  | some r => if r.ok then some r.status_code else none
  | none => none

def optIntStr : Option Int → String
  | none => "None"
  | some n => toString n

/-- `getattr(resp, "text", "") or ""`. -/
def respText : Option Resp → String
  | none => ""
  | some r => r.text

/-- The `or`-chain idiom for picking the first truthy string
(migration.py:2133-2138). -/
def firstTruthyStr (opts : List (Option String)) (dflt : String) : String :=
  match opts with
  | [] => dflt
  | some s :: rest => if s = "" then firstTruthyStr rest dflt else s
  | none :: rest => firstTruthyStr rest dflt

/-- Request-level failure entries: one failed item per exported dashboard in
the bulk payload (migration.py:2143-2152 and 2192-2201). -/
def bulkFailEntries (bulkData : List JVal) (reason : String) : List MigItem :=
  bulkData.map (fun exported =>
    let src := if exported.isObj then (exported.get "oid").asStr else none
    let t := if exported.isObj then (exported.get "title").asStr else none
    { title := t, source_id := src, reason := some reason })

/-- `source_ids_by_title` (migration.py:2234-2241). -/
def buildSourceIdsByTitle (bulkData : List JVal) : List (String × List String) :=
  bulkData.foldl (fun m exported =>
    if exported.isObj then
      match (exported.get "title").asStr, (exported.get "oid").asStr with
      | some t, some soid => alistAppend m t soid
      | _, _ => m
    else m) []

/-- `ids = source_ids_by_title.get(title) or []; if ids: ids.pop(0)`
(migration.py:2252-2255): pop the first remaining source id for a title,
mutating the pool. -/
def alistPopHead (m : List (String × List String)) (k : String) :
    Option String × List (String × List String) :=
  match m with
  | [] => (none, [])
  | (k', xs) :: rest =>
    if k = k' then
      match xs with
      | [] => (none, (k', xs) :: rest)
      | x :: xt => (some x, (k', xt) :: rest)
    else
      let (r, rest') := alistPopHead rest k
      (r, (k', xs) :: rest')

/-- Parsing one bulk-response `succeeded` item (migration.py:2244-2266).
State: `(summary, target_id_to_title, source-id pool)`. -/
def parseSucceededStep
    (st : DashSummary × List (String × String) × List (String × List String))
    (item : JVal) :
    DashSummary × List (String × String) × List (String × List String) :=
  let (summary, t2t, pool) := st
  if !item.isObj then st
  else
    let title := item.get "title"
    let target_id := item.get "oid"
    let sp :=
      match title.asStr with
      | some t => alistPopHead pool t
      | none => (none, pool)
    let t2t' :=
      match target_id.asStr, title.asStr with
      | some tid, some t => alistInsert t2t tid t
      | _, _ => t2t
    ({ summary with succeeded := summary.succeeded ++
        [{ title := title.asStr, source_id := sp.1, target_id := target_id.asStr }] },
     t2t', sp.2)

/-- Parsing one bulk-response `skipped` item (migration.py:2269-2289).
State: `(summary, source-id pool)`. -/
def parseSkippedStep (st : DashSummary × List (String × List String))
    (item : JVal) : DashSummary × List (String × List String) :=
  let (summary, pool) := st
  if !item.isObj then st
  else
    let title := item.get "title"
    let target_id := item.get "oid"
    let sp :=
      match title.asStr with
      | some t => alistPopHead pool t
      | none => (none, pool)
    ({ summary with skipped := summary.skipped ++
        [{ title := title.asStr, source_id := sp.1, target_id := target_id.asStr,
           reason := some "skipped_by_target" }] },
     sp.2)

/-- Parsing the category-grouped `failed` object (migration.py:2292-2319).
`str()` of a structured error detail is abstracted by `JVal.pyStr`. -/
def parseFailedEntries (failed_fs : List (String × JVal)) : List MigItem :=
  failed_fs.flatMap (fun p =>
    let (category, errors) := p
    match errors with
    | .jarr es =>
      es.filterMap (fun e =>
        if !e.isObj then none
        else
          let err_detail := e.get "error"
          let reason :=
            match err_detail with
            | .jobj _ =>
              match (err_detail.get "message").asStr with
              | some msg => msg
              | none => category ++ ": " ++ err_detail.pyStr
            | .jstr s => s
            | _ => category ++ ": " ++ err_detail.pyStr
          some { title := (e.get "title").asStr, source_id := (e.get "oid").asStr,
                 reason := some reason })
    | _ => [])

/-- The warning logged when a source title has no succeeded target
(migration.py:2398-2400). -/
def missWarn (src_title src_id : String) : String :=
  "Source dashboard '" ++ src_title ++ "' (source_id=" ++ src_id
    ++ ") not found among succeeded target dashboards."

/-- The warning logged on a target-title collision (migration.py:2402-2406). -/
def collisionWarn (src_title : String) : String :=
  "Multiple target dashboards share the same title '" ++ src_title
    ++ "'. Using the first one for shares/ownership migration."

/-- The grouping `title_to_targets` (migration.py:2391-2393). -/
def titleToTargets (target_id_to_title : List (String × String)) :
    List (String × List String) :=
  target_id_to_title.foldl (fun m (p : String × String) => alistAppend m p.2 p.1) []

/-- One iteration of the source-to-target mapping loop
(migration.py:2395-2407).  State is `(source_to_target, warnings logged)`. -/
def sourceToTargetStep (title_to_targets : List (String × List String))
    (st : List (String × String) × List String) (p : String × String) :
    List (String × String) × List String :=
  let (src_id, src_title) := p
  match (alookup title_to_targets src_title).getD [] with
  | [] => (st.1, st.2 ++ [missWarn src_title src_id])
  | tid :: rest =>
    let warns := if rest.isEmpty then st.2 else st.2 ++ [collisionWarn src_title]
    (alistInsert st.1 src_id tid, warns)

/-- The source→target dashboard mapping for share/ownership migration
(migration.py:2388-2407): group succeeded target ids by title, then map each
exported source id to the FIRST target id carrying its title.  The warnings
the code logs (title missing among succeeded targets; title collisions) are
collected for statement purposes. -/
def buildSourceToTarget (target_id_to_title source_id_to_title : List (String × String)) :
    List (String × String) × List String :=
  source_id_to_title.foldl (sourceToTargetStep (titleToTargets target_id_to_title)) ([], [])

/-- Step 2 failure path shared by the non-201 and message-without-results
branches (migration.py:2131-2179 and 2189-2226). -/
def bulkFailSummary (summary : DashSummary) (bulkData : List JVal) (reason : String) :
    DashSummary :=
  { summary with
      meta := { summary.meta with
                  bulk_request_failed := true
                  bulk_request_reason := some reason },
      failed := summary.failed ++ bulkFailEntries bulkData reason }

/-- Python control flow of the shape `do_call(x); return y` for a fallible
call whose result is discarded: the exception propagates, the value does
not. -/
def exceptReplace {α β : Type} (x : Except PyExc α) (b : β) : Except PyExc β :=
  match x with
  | .error e => .error e
  | .ok _ => .ok b

/-- Step 1 of `migrate_dashboards` (migration.py:1866-2072): resolve and
export the requested dashboards, producing
`(bulk_dashboard_data, source_id_to_title, summary-so-far)`.  Only the names
path can raise (a non-dict element under `d.get("oid")` at line 2001). -/
def dashResolveExport (env : DashEnv)
    (dashboard_ids dashboard_names : List String) :
    Except PyExc (List JVal × List (String × String) × DashSummary) :=
  if !dashboard_ids.isEmpty then
    .ok (dashboard_ids.foldl (exportIdsStep env) ([], [], {}))
  else
    match dedupByOid (dashNamesPages env.adminPages []) with
    | .error e => .error e
    | .ok deduped =>
      .ok (deduped.foldl (exportNamesStep env dashboard_names) ([], [], {}))

/-- Steps 2-3 of `migrate_dashboards` (migration.py:2095-2460): the bulk
import, response parsing and the optional share/ownership migration.  Step 3
never modifies the summary (migration.py:2429-2434 ignore the share result),
so only its exceptions are observable. -/
def migrateDashboardsBulkPhase (env : DashEnv) (action : Option String)
    (republish migrate_share change_ownership : Bool)
    (bulkData : List JVal) (idToTitle : List (String × String))
    (summary0 : DashSummary) : Except PyExc DashSummary :=
  let resp := env.bulkImport republish action bulkData
  let summary1 := { summary0 with
    meta := { summary0.meta with bulk_status_code := bulkStatusCode resp } }
  let sj := safeJson resp
  let message_from_payload := msgFromPayload sj.1
  let failReason := firstTruthyStr [message_from_payload, sj.2, some (truncate (respText resp))]
    ("Bulk import failed (status_code=" ++ optIntStr (bulkStatusCode resp) ++ ")")
  match sj.1 with
  | some (JVal.jobj fs) =>
    let statusOk :=
      match resp with
      | some r => r.status_code == 200 || r.status_code == 201
      | none => false
    if !statusOk then
      .ok (bulkFailSummary summary1 bulkData failReason)
    else
      let succeeded_key := if (fs.lookup "succeded").isSome then "succeded" else "succeeded"
      let succeeded_items :=
        match fs.lookup succeeded_key with
        | some (.jarr xs) => xs
        | _ => []
      let skipped_items :=
        match fs.lookup "skipped" with
        | some (.jarr xs) => xs
        | _ => []
      let failed_fs :=
        match fs.lookup "failed" with
        | some (.jobj ffs) => ffs
        | _ => []
      let msgTruthy :=
        match message_from_payload with
        | some s => s ≠ ""
        | none => false
      if succeeded_items.isEmpty && skipped_items.isEmpty && failed_fs.isEmpty
          && msgTruthy then
        .ok (bulkFailSummary summary1 bulkData (message_from_payload.getD ""))
      else
        let st1 := succeeded_items.foldl parseSucceededStep (summary1, [], pool1)
        let st2 := skipped_items.foldl parseSkippedStep (st1.1, st1.2.2)
        let summary4 := { st2.1 with failed := st2.1.failed ++ parseFailedEntries failed_fs }
        if !migrate_share then .ok summary4
        else if action = some "duplicate" ∨ action = some "overwrite" then .ok summary4
        else
          let s2t := (buildSourceToTarget st1.2.1 idToTitle).1
          if s2t.isEmpty then .ok summary4
          else
            exceptReplace
              (migrate_dashboard_shares env.shares (s2t.map (·.1)) (s2t.map (·.2))
                change_ownership)
              summary4
  | _ =>
    -- request_success is false whenever the parsed body is not a dict
    .ok (bulkFailSummary summary1 bulkData failReason)
where
  pool1 := buildSourceIdsByTitle bulkData

/-- The entry point `Migration.migrate_dashboards` (migration.py:1741-2460).
Lists model the optional id/name parameters: Python tests them only for
truthiness, so `None` and `[]` coincide.  `.error` carries the explicit
`ValueError`s of the validation block and any exception propagating from the
names-path dedup or the share-migration step (neither has a `try/except`
around it); every other failure mode ends in the returned summary. -/
def migrate_dashboards (env : DashEnv)
    (dashboard_ids dashboard_names : List String) (action : Option String)
    (republish migrate_share change_ownership : Bool) :
    Except PyExc DashSummary :=
  if !dashboard_ids.isEmpty && !dashboard_names.isEmpty then
    .error (.valueError "Provide either 'dashboard_ids' or 'dashboard_names', not both.")
  else if dashboard_ids.isEmpty && dashboard_names.isEmpty then
    .error (.valueError "Provide either 'dashboard_ids' or 'dashboard_names'.")
  else if !migrate_share && change_ownership then
    .error (.valueError "The 'change_ownership' parameter requires 'migrate_share=True'.")
  else
    dashResolveExport env dashboard_ids dashboard_names >>=
      fun (bulkData, idToTitle, summary0) =>
        if bulkData.isEmpty then .ok summary0    -- migration.py:2074-2090
        else migrateDashboardsBulkPhase env action republish migrate_share
          change_ownership bulkData idToTitle summary0

/-! ## Migration.migrate_all_dashboards: batch loop and salvage mode
    (src/pysisense/migration.py:2740-2967) -/

/-- Helper for `chunkList`, structurally recursive on a fuel bounded by the
list length so that it reduces definitionally. -/
def chunkListAux (fuel : Nat) (l : List α) (n : Nat) : List (List α) :=
  match fuel, l with
  | _, [] => []
  | 0, _ => []
  | fuel + 1, x :: xs =>
    if n = 0 then []
    else (x :: xs).take n :: chunkListAux fuel (xs.drop (n - 1)) n

/-- The `ids[i : i + batch_size]` slices of the `range(0, total, batch_size)`
loop (migration.py:2793-2794); meaningful for `batch_size > 0` (Python's
`range` raises `ValueError` on a zero step). -/
def chunkList (l : List α) (n : Nat) : List (List α) := chunkListAux l.length l n

/-- The non-self parameters `migrate_all_dashboards` forwards to
`migrate_dashboards`. -/
structure DashParams where
  action : Option String := none
  republish : Bool := false
  migrate_share : Bool := false
  change_ownership : Bool := false

/-- A recorded `migrate_dashboards` invocation (ids and conflict action). -/
structure DashCall where
  ids : List String
  action : Option String
deriving DecidableEq, Repr

/-- The overall `migration_summary` of `migrate_all_dashboards`
(migration.py:2742); the count/metadata fields added at 2950-2966 are the
lengths of these lists. -/
structure AllSummary where
  succeeded : List MigItem := []
  skipped : List MigItem := []
  failed : List MigItem := []
deriving DecidableEq, Repr

def AllSummary.total (s : AllSummary) : Nat :=
  s.succeeded.length + s.skipped.length + s.failed.length

/-- A batch call made by the orchestrator (migration.py:2813-2819 with the
caller's action, 2874-2880 with `"skip"` in salvage mode). -/
def callMigrateDashboards (env : DashEnv) (p : DashParams) (ids : List String)
    (action : Option String) : Except PyExc DashSummary :=
  migrate_dashboards env ids [] action p.republish p.migrate_share p.change_ownership

/-- Aggregate a batch summary into the overall summary
(migration.py:2823-2825, 2882-2884): `.get(key, [])` on a summary that always
carries the three lists. -/
def AllSummary.absorb (acc : AllSummary) (s : DashSummary) : AllSummary :=
  { succeeded := acc.succeeded ++ s.succeeded,
    skipped := acc.skipped ++ s.skipped,
    failed := acc.failed ++ s.failed }

/-- One salvage retry (migration.py:2872-2889): a single-dashboard call with
`action="skip"`; a raise appends exactly one failed entry. -/
def dashSalvageStep (env : DashEnv) (p : DashParams)
    (st : AllSummary × List DashCall) (did : String) : AllSummary × List DashCall :=
  let (a, log) := st
  let log := log ++ [⟨[did], some "skip"⟩]
  match callMigrateDashboards env p [did] (some "skip") with
  | .ok s1 => (a.absorb s1, log)
  | .error e2 =>
    ({ a with failed := a.failed ++
        [{ title := none, source_id := some did,
           reason := some ("Salvage retry failed: " ++ e2.message) }] }, log)

/-- One batch of the `migrate_all_dashboards` loop (migration.py:2812-2902):
the bulk call with the caller's action; on a raise, salvage mode retries the
batch one dashboard at a time with `action="skip"`.  Besides the summary the
embedding records every `migrate_dashboards` invocation. -/
def dashBatchStep (env : DashEnv) (p : DashParams)
    (st : AllSummary × List DashCall) (batch : List String) :
    AllSummary × List DashCall :=
  let (acc, log) := st
  let log := log ++ [⟨batch, p.action⟩]
  match callMigrateDashboards env p batch p.action with
  | .ok s => (acc.absorb s, log)
  | .error _ => batch.foldl (dashSalvageStep env p) (acc, log)

/-- Step 2 of `migrate_all_dashboards` (migration.py:2740-2967), given the
sorted unique dashboard-id list produced by the fetch phase.  The derived
count fields (`succeeded_count` etc., migration.py:2924-2966) are the lengths
of the returned lists. -/
def migrate_all_dashboards_batches (env : DashEnv) (p : DashParams)
    (all_dashboard_ids_list : List String) (batch_size : Nat) :
    AllSummary × List DashCall :=
  (chunkList all_dashboard_ids_list batch_size).foldl (dashBatchStep env p) ({}, [])

/-! ## Migration.migrate_all_datamodels: batch loop and salvage mode
    (src/pysisense/migration.py:4193-4287).  The callee `migrate_datamodels`
    is dependency-injected: for the claims about the orchestrator only the
    arguments it passes (ids and `action`) and whether the call raises
    matter. -/

/-- One salvage retry of the datamodel loop (migration.py:4253-4274): a
single-datamodel call with the CALLER'S original `action`. -/
def dmSalvageStep (mig : List String → Option String → Except PyExc DashSummary)
    (action : Option String) (st : AllSummary × List DashCall) (dm_id : String) :
    AllSummary × List DashCall :=
  let (a, log) := st
  let log := log ++ [⟨[dm_id], action⟩]
  match mig [dm_id] action with
  | .ok s1 => (a.absorb s1, log)
  | .error e2 =>
    ({ a with failed := a.failed ++
        [{ title := none, source_id := some dm_id,
           reason := some ("Salvage retry failed: " ++ e2.message) }] }, log)

/-- One batch of the `migrate_all_datamodels` loop (migration.py:4193-4287). -/
def dmBatchStep (mig : List String → Option String → Except PyExc DashSummary)
    (action : Option String) (st : AllSummary × List DashCall)
    (batch : List String) : AllSummary × List DashCall :=
  let (acc, log) := st
  let log := log ++ [⟨batch, action⟩]
  match mig batch action with
  | .ok s => (acc.absorb s, log)
  | .error _ => batch.foldl (dmSalvageStep mig action) (acc, log)

/-- The batch phase of `migrate_all_datamodels` (migration.py:4164-4287),
given the datamodel-id list from the fetch phase. -/
def migrate_all_datamodels_batches
    (mig : List String → Option String → Except PyExc DashSummary)
    (action : Option String) (all_ids : List String) (batch_size : Nat) :
    AllSummary × List DashCall :=
  (chunkList all_ids batch_size).foldl (dmBatchStep mig action) ({}, [])

/-! ## Auxiliary definitions used by the statements -/

instance {ε α : Type} [DecidableEq ε] [DecidableEq α] : DecidableEq (Except ε α) :=
  fun a b =>
    match a, b with
    | .ok x, .ok y =>
      if h : x = y then isTrue (by rw [h]) else isFalse (by intro he; cases he; exact h rfl)
    | .error x, .error y =>
      if h : x = y then isTrue (by rw [h]) else isFalse (by intro he; cases he; exact h rfl)
    | .ok _, .error _ => isFalse (by intro h; cases h)
    | .error _, .ok _ => isFalse (by intro h; cases h)

def DashSummary.total (s : DashSummary) : Nat :=
  s.succeeded.length + s.skipped.length + s.failed.length

/-- Number of items a salvage retry contributes for one dashboard: the size
of the returned summary, or exactly one failed entry when the retry raises
(migration.py:2872-2889). -/
def salvageContribution (env : DashEnv) (p : DashParams) (did : String) : Nat :=
  match callMigrateDashboards env p [did] (some "skip") with
  | .ok s => s.total
  | .error _ => 1

/-- The summary a non-raising batch call returns (defaulting to the empty
summary on a raise, which the C2-style statements exclude by hypothesis). -/
def batchOkSummary (env : DashEnv) (p : DashParams) (b : List String) : DashSummary :=
  match callMigrateDashboards env p b p.action with
  | .ok s => s
  | .error _ => {}

def ok200 (j : JVal) : Option Resp := some ⟨200, "", some j⟩

def ok201 (j : JVal) : Option Resp := some ⟨201, "", some j⟩

/-- A `ShareEnv` whose four listing endpoints return empty JSON lists and
whose remaining endpoints are unreachable in the runs that use it. -/
def quietShareEnv : ShareEnv :=
  { sourceUsers := ok200 (.jarr []), sourceGroups := ok200 (.jarr []),
    targetUsers := ok200 (.jarr []), targetGroups := ok200 (.jarr []),
    sourceShares := fun _ => some ⟨200, "bad", none⟩,
    targetSharesAdmin := fun _ => none, targetSharesPlain := fun _ => none,
    postSharesAdmin := fun _ _ => none, postSharesPlain := fun _ _ => none,
    changeOwnerAdmin := fun _ _ => none, changeOwnerPlain := fun _ _ => none }

def c1doc1 : JVal := .jobj [("oid", .jstr "d1"), ("title", .jstr "T1")]

def c1doc2 : JVal := .jobj [("oid", .jstr "d2"), ("title", .jstr "T2")]

/-- Environment for the C1 counterexample: the two-dashboard bulk call
succeeds at the HTTP level but the subsequent share migration hits a 200
response with a non-JSON body and raises; in salvage mode the per-dashboard
bulk imports return 201 with an empty body, accounting for none of the
submitted dashboards. -/
def c1Env : DashEnv :=
  { exportAdmin := fun oid =>
      if oid = "d1" then ok200 c1doc1 else if oid = "d2" then ok200 c1doc2 else none,
    exportPlain := fun _ => none,
    adminPages := [],
    bulkImport := fun _ _ payload =>
      if payload = [c1doc1, c1doc2] then
        ok201 (.jobj [("succeeded", .jarr [.jobj [("title", .jstr "T1"), ("oid", .jstr "t1")]])])
      else ok201 (.jobj []),
    shares := quietShareEnv }

def c1Params : DashParams := { migrate_share := true }

/-- A `migrate_datamodels` stand-in for the C3 counterexample: raises on
multi-id batches, succeeds with an empty summary on single ids. -/
def c3Mig (ids : List String) (_action : Option String) : Except PyExc DashSummary :=
  if ids.length ≤ 1 then .ok {} else .error (.valueError "boom")

/-- Source share listing with one user share whose user has no target match
(C4 counterexample). -/
def c4ShareEnvWithShare : ShareEnv :=
  { sourceUsers := ok200 (.jarr [.jobj [("_id", .jstr "s1"), ("email", .jstr "alice@x")]]),
    sourceGroups := ok200 (.jarr []),
    targetUsers := ok200 (.jarr []),
    targetGroups := ok200 (.jarr []),
    sourceShares := fun _ => ok200 (.jobj
      [("sharesTo", .jarr [.jobj [("type", .jstr "user"), ("shareId", .jstr "s1")]]),
       ("owner", .jobj [])]),
    targetSharesAdmin := fun _ => ok200 (.jobj [("sharesTo", .jarr [])]),
    targetSharesPlain := fun _ => none,
    postSharesAdmin := fun _ _ => none, postSharesPlain := fun _ _ => none,
    changeOwnerAdmin := fun _ _ => none, changeOwnerPlain := fun _ _ => none }

/-- Same environment with the unmatched share absent. -/
def c4ShareEnvNoShare : ShareEnv :=
  { c4ShareEnvWithShare with
      sourceShares := fun _ => ok200 (.jobj [("sharesTo", .jarr []), ("owner", .jobj [])]) }

/-- Environment for the C7 counterexample: valid arguments, successful export
and bulk import, then a non-JSON 200 body during share migration. -/
def c7Env : DashEnv :=
  { exportAdmin := fun _ => ok200 c1doc1,
    exportPlain := fun _ => none,
    adminPages := [],
    bulkImport := fun _ _ _ =>
      ok201 (.jobj [("succeeded", .jarr [.jobj [("title", .jstr "T1"), ("oid", .jstr "t1")]])]),
    shares := quietShareEnv }

/-- Duplicate-email target listing for the C5 counterexample. -/
def c5TargetUsers : JVal := .jarr
  [.jobj [("_id", .jstr "u1"), ("email", .jstr "dup@x")],
   .jobj [("_id", .jstr "u2"), ("email", .jstr "dup@x")]]

/-- A dashboard environment whose every request fails at the transport level
(exports fail, so single calls return noop summaries). -/
def nullDashEnv : DashEnv :=
  { exportAdmin := fun _ => none, exportPlain := fun _ => none, adminPages := [],
    bulkImport := fun _ _ _ => none, shares := quietShareEnv }

/-- The proposition that an embedded computation did not end in a raised
`ValueError` (it may have raised any other exception, or succeeded).  Used to
classify the exceptions that can escape `migrate_dashboards` once its
argument validation has passed. -/
def exceptNoVE {α : Type} (x : Except PyExc α) : Prop :=
  ∀ e, x = .error e → e.isValueError = false

/-! # Supporting lemmas -/

theorem sum_map_ones {α : Type} (f : α → Nat) :
    ∀ l : List α, (∀ x ∈ l, f x = 1) → (l.map f).sum = l.length := by
  intro l
  induction l with
  | nil => simp
  | cons x xs ih =>
    intro h
    simp only [List.map_cons, List.sum_cons, List.length_cons]
    rw [h x (by simp), ih (fun y hy => h y (by simp [hy]))]
    omega

theorem absorb_total (acc : AllSummary) (s : DashSummary) :
    (acc.absorb s).total = acc.total + s.total := by
  simp [AllSummary.absorb, AllSummary.total, DashSummary.total]
  omega

theorem dashSalvage_fold_total (env : DashEnv) (p : DashParams) :
    ∀ (batch : List String) (acc : AllSummary) (log : List DashCall),
      (batch.foldl (dashSalvageStep env p) (acc, log)).1.total
        = acc.total + (batch.map (salvageContribution env p)).sum := by
  intro batch
  induction batch with
  | nil => intro acc log; simp
  | cons did rest ih =>
    intro acc log
    rw [List.foldl_cons]
    cases h : callMigrateDashboards env p [did] (some "skip") with
    | ok s =>
      have hstep : dashSalvageStep env p (acc, log) did
          = (acc.absorb s, log ++ [⟨[did], some "skip"⟩]) := by
        unfold dashSalvageStep
        rw [h]
      have hc : salvageContribution env p did = s.total := by
        unfold salvageContribution
        rw [h]
      rw [hstep, ih, absorb_total]
      simp [hc]
      omega
    | error e =>
      have hstep : dashSalvageStep env p (acc, log) did
          = ({ acc with failed := acc.failed ++
                [{ title := none, source_id := some did,
                   reason := some ("Salvage retry failed: " ++ e.message) }] },
             log ++ [⟨[did], some "skip"⟩]) := by
        unfold dashSalvageStep
        rw [h]
      have hc : salvageContribution env p did = 1 := by
        unfold salvageContribution
        rw [h]
      rw [hstep, ih]
      simp [hc, AllSummary.total]
      omega

theorem dashSalvage_fold_log (env : DashEnv) (p : DashParams) :
    ∀ (batch : List String) (acc : AllSummary) (log : List DashCall),
      (batch.foldl (dashSalvageStep env p) (acc, log)).2
        = log ++ batch.map (fun did => (⟨[did], some "skip"⟩ : DashCall)) := by
  intro batch
  induction batch with
  | nil => intro acc log; simp
  | cons did rest ih =>
    intro acc log
    rw [List.foldl_cons]
    cases h : callMigrateDashboards env p [did] (some "skip") with
    | ok s =>
      have hstep : dashSalvageStep env p (acc, log) did
          = (acc.absorb s, log ++ [⟨[did], some "skip"⟩]) := by
        unfold dashSalvageStep; rw [h]
      rw [hstep, ih]
      simp
    | error e =>
      have hstep : dashSalvageStep env p (acc, log) did
          = ({ acc with failed := acc.failed ++
                [{ title := none, source_id := some did,
                   reason := some ("Salvage retry failed: " ++ e.message) }] },
             log ++ [⟨[did], some "skip"⟩]) := by
        unfold dashSalvageStep; rw [h]
      rw [hstep, ih]
      simp

theorem dmSalvage_fold_log (mig : List String → Option String → Except PyExc DashSummary)
    (action : Option String) :
    ∀ (batch : List String) (acc : AllSummary) (log : List DashCall),
      (batch.foldl (dmSalvageStep mig action) (acc, log)).2
        = log ++ batch.map (fun i => (⟨[i], action⟩ : DashCall)) := by
  intro batch
  induction batch with
  | nil => intro acc log; simp
  | cons i rest ih =>
    intro acc log
    rw [List.foldl_cons]
    cases h : mig [i] action with
    | ok s =>
      have hstep : dmSalvageStep mig action (acc, log) i
          = (acc.absorb s, log ++ [⟨[i], action⟩]) := by
        unfold dmSalvageStep; rw [h]
      rw [hstep, ih]
      simp
    | error e =>
      have hstep : dmSalvageStep mig action (acc, log) i
          = ({ acc with failed := acc.failed ++
                [{ title := none, source_id := some i,
                   reason := some ("Salvage retry failed: " ++ e.message) }] },
             log ++ [⟨[i], action⟩]) := by
        unfold dmSalvageStep; rw [h]
      rw [hstep, ih]
      simp

theorem dashBatches_fold_ok (env : DashEnv) (p : DashParams) :
    ∀ (chunks : List (List String)) (acc : AllSummary) (log : List DashCall),
      (∀ b ∈ chunks, ∃ s, callMigrateDashboards env p b p.action = .ok s) →
      (chunks.foldl (dashBatchStep env p) (acc, log)).1.succeeded
          = acc.succeeded ++ chunks.flatMap (fun b => (batchOkSummary env p b).succeeded) ∧
      (chunks.foldl (dashBatchStep env p) (acc, log)).1.skipped
          = acc.skipped ++ chunks.flatMap (fun b => (batchOkSummary env p b).skipped) ∧
      (chunks.foldl (dashBatchStep env p) (acc, log)).1.failed
          = acc.failed ++ chunks.flatMap (fun b => (batchOkSummary env p b).failed) := by
  intro chunks
  induction chunks with
  | nil => intro acc log _; simp
  | cons b rest ih =>
    intro acc log hok
    obtain ⟨s, hs⟩ := hok b (by simp)
    have hbs : batchOkSummary env p b = s := by
      unfold batchOkSummary; rw [hs]
    have hstep : dashBatchStep env p (acc, log) b = (acc.absorb s, log ++ [⟨b, p.action⟩]) := by
      unfold dashBatchStep; rw [hs]
    rw [List.foldl_cons, hstep]
    have hrec := ih (acc.absorb s) (log ++ [⟨b, p.action⟩])
      (fun b' hb' => hok b' (by simp [hb']))
    refine ⟨?_, ?_, ?_⟩
    · rw [hrec.1]; simp [AllSummary.absorb, hbs]
    · rw [hrec.2.1]; simp [AllSummary.absorb, hbs]
    · rw [hrec.2.2]; simp [AllSummary.absorb, hbs]

theorem alookup_alistAppend [BEq κ] [LawfulBEq κ] (m : List (κ × List α)) (k k' : κ) (x : α) :
    alookup (alistAppend m k x) k' =
      if k' == k then some ((alookup m k).getD [] ++ [x]) else alookup m k' := by
  induction m with
  | nil => simp [alistAppend, alookup]
  | cons hd tl ih =>
    obtain ⟨k₀, xs⟩ := hd
    by_cases hk : k = k₀
    · subst hk
      by_cases hk' : k' = k <;> simp [alistAppend, alookup, hk']
    · have hbk : (k == k₀) = false := by simp [hk]
      by_cases hk' : k' = k₀
      · subst hk'
        have hne : (k' == k) = false := by
          simp only [beq_eq_false_iff_ne, ne_eq]
          exact fun he => hk he.symm
        simp [alistAppend, alookup, hbk, hne]
      · have hbk' : (k' == k₀) = false := by simp [hk']
        simp [alistAppend, alookup, hbk, hbk', ih]

theorem titleToTargets_fold_lookup :
    ∀ (t2t : List (String × String)) (acc : List (String × List String)) (title : String),
      (alookup (t2t.foldl (fun m p => alistAppend m p.2 p.1) acc) title).getD []
        = (alookup acc title).getD []
          ++ (t2t.filter (fun p => p.2 == title)).map (·.1) := by
  intro t2t
  induction t2t with
  | nil => intro acc title; simp
  | cons p rest ih =>
    intro acc title
    obtain ⟨tid, ptitle⟩ := p
    rw [List.foldl_cons, ih]
    by_cases h : ptitle = title
    · subst h
      rw [alookup_alistAppend]
      simp [List.filter_cons]
    · have h1 : (title == ptitle) = false := by
        simp only [beq_eq_false_iff_ne, ne_eq]
        exact fun he => h he.symm
      have h2 : (ptitle == title) = false := by simp [h]
      rw [alookup_alistAppend, h1]
      simp [List.filter_cons, h2]

/-- The target-id list grouped under a title is exactly the (ordered) list of
succeeded target ids carrying that title. -/
theorem titleToTargets_lookup (t2t : List (String × String)) (title : String) :
    (alookup (titleToTargets t2t) title).getD []
      = (t2t.filter (fun p => p.2 == title)).map (·.1) := by
  unfold titleToTargets
  rw [titleToTargets_fold_lookup]
  simp [alookup]

theorem s2t_fold_untouched (ttt : List (String × List String)) :
    ∀ (l : List (String × String)) (st : List (String × String) × List String)
      (src : String), (∀ p ∈ l, p.1 ≠ src) →
      alookup (l.foldl (sourceToTargetStep ttt) st).1 src = alookup st.1 src := by
  intro l
  induction l with
  | nil => intro st src _; rfl
  | cons p rest ih =>
    intro st src h
    rw [List.foldl_cons, ih _ src (fun q hq => h q (by simp [hq]))]
    obtain ⟨pid, ptitle⟩ := p
    have hpid : pid ≠ src := h (pid, ptitle) (by simp)
    simp only [sourceToTargetStep]
    cases hT : (alookup ttt ptitle).getD [] with
    | nil => rfl
    | cons tid rest2 =>
      show alookup (alistInsert st.1 pid tid) src = alookup st.1 src
      rw [alookup_insert]
      have : (src == pid) = false := by
        simp only [beq_eq_false_iff_ne, ne_eq]
        exact fun he => hpid he.symm
      simp [this]

theorem s2t_fold_warn_mono (ttt : List (String × List String)) :
    ∀ (l : List (String × String)) (st : List (String × String) × List String)
      (w : String), w ∈ st.2 → w ∈ (l.foldl (sourceToTargetStep ttt) st).2 := by
  intro l
  induction l with
  | nil => intro st w hw; exact hw
  | cons p rest ih =>
    intro st w hw
    rw [List.foldl_cons]
    apply ih
    obtain ⟨pid, ptitle⟩ := p
    simp only [sourceToTargetStep]
    cases hT : (alookup ttt ptitle).getD [] with
    | nil => exact List.mem_append_left _ hw
    | cons tid rest2 =>
      show w ∈ (if rest2.isEmpty then st.2 else st.2 ++ [collisionWarn ptitle])
      by_cases hr : rest2.isEmpty
      · simpa [hr] using hw
      · simp only [hr, if_false]
        exact List.mem_append_left _ hw

theorem s2t_fold_spec (ttt : List (String × List String)) :
    ∀ (l : List (String × String)) (st : List (String × String) × List String)
      (src title : String),
      (src, title) ∈ l → (l.map Prod.fst).Nodup → alookup st.1 src = none →
      alookup (l.foldl (sourceToTargetStep ttt) st).1 src
          = ((alookup ttt title).getD []).head? ∧
      (∀ tid rest2, (alookup ttt title).getD [] = tid :: rest2 → rest2 ≠ [] →
        collisionWarn title ∈ (l.foldl (sourceToTargetStep ttt) st).2) := by
  intro l
  induction l with
  | nil => intro st src title hmem; cases hmem
  | cons p rest ih =>
    intro st src title hmem hnodup h0
    have hnr : (rest.map Prod.fst).Nodup := (List.nodup_cons.mp (by simpa using hnodup)).2
    have hhead : p.1 ∉ rest.map Prod.fst := (List.nodup_cons.mp (by simpa using hnodup)).1
    rcases List.mem_cons.mp hmem with heq | hmem'
    · obtain rfl : p = (src, title) := heq.symm
      rw [List.foldl_cons]
      have huntouched : ∀ q ∈ rest, q.1 ≠ src := by
        intro q hq he
        exact hhead (by simpa [he] using List.mem_map_of_mem Prod.fst hq)
      cases hT : (alookup ttt title).getD [] with
      | nil =>
        have hstep : sourceToTargetStep ttt st (src, title)
            = (st.1, st.2 ++ [missWarn title src]) := by
          simp only [sourceToTargetStep]
          rw [hT]
        rw [hstep]
        constructor
        · rw [s2t_fold_untouched ttt rest _ src huntouched]
          simpa using h0
        · intro tid rest2 hcontra
          simp at hcontra
      | cons tid rest2 =>
        have hstep : sourceToTargetStep ttt st (src, title)
            = (alistInsert st.1 src tid,
               if rest2.isEmpty then st.2 else st.2 ++ [collisionWarn title]) := by
          simp only [sourceToTargetStep]
          rw [hT]
        rw [hstep]
        constructor
        · rw [s2t_fold_untouched ttt rest _ src huntouched, alookup_insert]
          simp
        · intro tid' rest2' hEq hne
          cases hEq
          have hrS : rest2.isEmpty = false := by
            cases rest2 with
            | nil => exact absurd rfl hne
            | cons a b => rfl
          apply s2t_fold_warn_mono
          simp [hrS]
    · have hsrc_mem : src ∈ rest.map Prod.fst :=
        by simpa using List.mem_map_of_mem Prod.fst hmem'
      have hp1 : p.1 ≠ src := fun he => hhead (he ▸ hsrc_mem)
      rw [List.foldl_cons]
      apply ih _ src title hmem' hnr
      obtain ⟨pid, ptitle⟩ := p
      simp only [sourceToTargetStep]
      cases hT : (alookup ttt ptitle).getD [] with
      | nil => simpa using h0
      | cons tid rest2 =>
        show alookup (alistInsert st.1 pid tid) src = none
        rw [alookup_insert]
        have : (src == pid) = false := by
          simp only [beq_eq_false_iff_ne, ne_eq]
          exact fun he => hp1 (by simp [he])
        simp [this, h0]

theorem firstTitleOid_append (names : List String) (a b : List JVal) (t : String) :
    firstTitleOid names (a ++ b) t
      = (firstTitleOid names a t).or (firstTitleOid names b t) := by
  induction a with
  | nil => simp [firstTitleOid]
  | cons dm rest ih =>
    rw [List.cons_append, firstTitleOid, firstTitleOid, ih, Option.or_assoc]

theorem scan_step_lookup (names : List String)
    (fd : List (String × String) × List (String × Nat)) (dm : JVal) (t : String) :
    alookup (scanDmItem names fd dm).1 t
      = (alookup fd.1 t).or (dmHeadOid names t dm) := by
  cases dm with
  | jobj fs =>
    cases hti : (JVal.get (.jobj fs) "title").asStr with
    | none =>
      have h1 : scanDmItem names fd (.jobj fs) = fd := by
        unfold scanDmItem
        rw [hti]
      have h2 : dmHeadOid names t (.jobj fs) = none := by
        unfold dmHeadOid
        rw [hti]
      rw [h1, h2]
      cases alookup fd.1 t <;> rfl
    | some t' =>
      cases hoid : (JVal.get (.jobj fs) "oid").asStr with
      | none =>
        have h1 : scanDmItem names fd (.jobj fs) = fd := by
          unfold scanDmItem
          rw [hti, hoid]
        have h2 : dmHeadOid names t (.jobj fs) = none := by
          unfold dmHeadOid
          rw [hti, hoid]
        rw [h1, h2]
        cases alookup fd.1 t <;> rfl
      | some oid =>
        by_cases hw : names.contains t'
        · have hm : t' ∈ names := by simpa using hw
          by_cases hfound : (alookup fd.1 t').isSome
          · have h1 : (scanDmItem names fd (.jobj fs)).1 = fd.1 := by
              unfold scanDmItem
              rw [hti, hoid]
              simp [hm, hfound]
            rw [h1]
            by_cases ht : t' = t
            · subst ht
              obtain ⟨x, hx⟩ := Option.isSome_iff_exists.mp hfound
              have h2 : dmHeadOid names t' (.jobj fs) = some oid := by
                unfold dmHeadOid
                rw [hti, hoid]
                simp [hm]
              rw [h2, hx]
              rfl
            · have h2 : dmHeadOid names t (.jobj fs) = none := by
                unfold dmHeadOid
                rw [hti, hoid]
                simp [ht]
              rw [h2]
              cases alookup fd.1 t <;> rfl
          · have hnone : alookup fd.1 t' = none := by
              cases hx : alookup fd.1 t'
              · rfl
              · rw [hx] at hfound; simp at hfound
            have h1 : (scanDmItem names fd (.jobj fs)).1 = alistInsert fd.1 t' oid := by
              unfold scanDmItem
              rw [hti, hoid]
              simp [hm, hnone]
            rw [h1, alookup_insert]
            by_cases ht : t' = t
            · subst ht
              have h2 : dmHeadOid names t' (.jobj fs) = some oid := by
                unfold dmHeadOid
                rw [hti, hoid]
                simp [hm]
              rw [h2, hnone]
              simp
            · have hne : (t == t') = false := by
                simp only [beq_eq_false_iff_ne, ne_eq]
                exact fun he => ht he.symm
              have h2 : dmHeadOid names t (.jobj fs) = none := by
                unfold dmHeadOid
                rw [hti, hoid]
                simp [ht]
              rw [h2, hne]
              simp
        · have hm : t' ∉ names := by simpa using hw
          have h1 : scanDmItem names fd (.jobj fs) = fd := by
            unfold scanDmItem
            rw [hti, hoid]
            simp [hm]
          have h2 : dmHeadOid names t (.jobj fs) = none := by
            unfold dmHeadOid
            rw [hti, hoid]
            simp [hm]
          rw [h1, h2]
          cases alookup fd.1 t <;> rfl
  | jnull =>
    simp only [scanDmItem, dmHeadOid]
    cases alookup fd.1 t <;> rfl
  | jbool b =>
    simp only [scanDmItem, dmHeadOid]
    cases alookup fd.1 t <;> rfl
  | jnum n =>
    simp only [scanDmItem, dmHeadOid]
    cases alookup fd.1 t <;> rfl
  | jstr str =>
    simp only [scanDmItem, dmHeadOid]
    cases alookup fd.1 t <;> rfl
  | jarr xs =>
    simp only [scanDmItem, dmHeadOid]
    cases alookup fd.1 t <;> rfl

theorem scan_fold_first (names : List String) :
    ∀ (items : List JVal) (fd : List (String × String) × List (String × Nat))
      (t : String),
      alookup (items.foldl (scanDmItem names) fd).1 t
        = (alookup fd.1 t).or (firstTitleOid names items t) := by
  intro items
  induction items with
  | nil =>
    intro fd t
    show alookup fd.1 t = (alookup fd.1 t).or none
    cases alookup fd.1 t <;> rfl
  | cons dm rest ih =>
    intro fd t
    rw [List.foldl_cons, ih, firstTitleOid, scan_step_lookup, Option.or_assoc]

theorem dmResolveLoop_spec (names : List String) :
    ∀ (pages : List (Option Resp)) (found : List (String × String))
      (dups : List (String × Nat)) (scanned : List JVal) (pf : Nat)
      (found' : List (String × String)) (dups' : List (String × Nat))
      (scanned' : List JVal),
      dmResolveLoop names pages found dups scanned pf = .ok (found', dups', scanned') →
      ∃ delta, scanned' = scanned ++ delta ∧
        ∀ t, alookup found' t = (alookup found t).or (firstTitleOid names delta t) := by
  intro pages
  induction pages with
  | nil =>
    intro found dups scanned pf found' dups' scanned' h
    unfold dmResolveLoop at h
    by_cases hpf : pf = 0
    · rw [if_pos hpf] at h; cases h
    · rw [if_neg hpf] at h
      cases h
      exact ⟨[], by simp, fun t => by cases alookup found t <;> rfl⟩
  | cons page rest ih =>
    intro found dups scanned pf found' dups' scanned' h
    cases page with
    | none =>
      unfold dmResolveLoop at h
      by_cases hpf : pf = 0
      · rw [if_pos hpf] at h; cases h
      · rw [if_neg hpf] at h
        cases h
        exact ⟨[], by simp, fun t => by cases alookup found t <;> rfl⟩
    | some r =>
      unfold dmResolveLoop at h
      by_cases hst : r.status_code ≠ 200
      · rw [if_pos hst] at h
        by_cases hpf : pf = 0
        · rw [if_pos hpf] at h; cases h
        · rw [if_neg hpf] at h
          cases h
          exact ⟨[], by simp, fun t => by cases alookup found t <;> rfl⟩
      · rw [if_neg hst] at h
        set items := pageItems (safeJson (some r)).1 ["items", "datamodels", "results", "data"] with hitems
        by_cases hempty : items.isEmpty
        · rw [if_pos hempty] at h
          cases h
          exact ⟨[], by simp, fun t => by cases alookup found t <;> rfl⟩
        · rw [if_neg hempty] at h
          by_cases hlt : items.length < 100
          · rw [if_pos hlt] at h
            cases h
            refine ⟨items, rfl, fun t => ?_⟩
            exact scan_fold_first names items (found, dups) t
          · rw [if_neg hlt] at h
            by_cases hdone : names ≠ [] ∧ names.dedup.length
                ≤ (items.foldl (scanDmItem names) (found, dups)).1.length
            · rw [if_pos hdone] at h
              cases h
              refine ⟨items, rfl, fun t => ?_⟩
              exact scan_fold_first names items (found, dups) t
            · rw [if_neg hdone] at h
              obtain ⟨delta2, hsc, hlook⟩ :=
                ih (items.foldl (scanDmItem names) (found, dups)).1
                  (items.foldl (scanDmItem names) (found, dups)).2
                  (scanned ++ items) (pf + 1) found' dups' scanned' h
              refine ⟨items ++ delta2, by simp [hsc], fun t => ?_⟩
              rw [hlook t, scan_fold_first names items (found, dups) t,
                firstTitleOid_append, Option.or_assoc]

theorem except_bind_ok {ε α β : Type} {x : Except ε α} {f : α → Except ε β} {b : β} :
    (x >>= f) = .ok b ↔ ∃ a, x = .ok a ∧ f a = .ok b := by
  cases x with
  | ok a =>
    constructor
    · intro h
      exact ⟨a, rfl, h⟩
    · rintro ⟨a', ha', hf⟩
      cases ha'
      exact hf
  | error e =>
    constructor
    · intro h
      cases h
    · rintro ⟨a', ha', _⟩
      cases ha'

theorem migrateUsersGroupsStep_ok (user : JVal) (out : List JVal) (group : JVal)
    (out' : List JVal) (h : migrateUsersGroupsStep user out group = .ok out') :
    out' = out ∨ ∃ gid n, out' = out ++ [gid] ∧ jindex group "_id" = .ok gid ∧
      jindex group "name" = .ok n ∧ jvalInStrSet n EXCLUDED_GROUPS = false := by
  unfold migrateUsersGroupsStep at h
  obtain ⟨name, hname, h⟩ := except_bind_ok.mp h
  obtain ⟨ugroups, hug, h⟩ := except_bind_ok.mp h
  obtain ⟨gitems, hgi, h⟩ := except_bind_ok.mp h
  obtain ⟨inner, hin, h⟩ := except_bind_ok.mp h
  by_cases hc : (inner.contains name && !(jvalInStrSet name EXCLUDED_GROUPS)) = true
  · rw [if_pos hc] at h
    obtain ⟨gid, hgid, h⟩ := except_bind_ok.mp h
    cases h
    right
    refine ⟨gid, name, rfl, hgid, hname, ?_⟩
    have := (Bool.and_eq_true _ _).mp hc
    simpa using this.2
  · rw [if_neg hc] at h
    cases h
    exact Or.inl rfl

theorem migrateUsersGroupsField_mem (user : JVal) :
    ∀ (tgs : List JVal) (acc out : List JVal),
      tgs.foldlM (migrateUsersGroupsStep user) acc = .ok out →
      ∀ gid ∈ out, gid ∈ acc ∨ ∃ group ∈ tgs, ∃ n,
        jindex group "_id" = .ok gid ∧ jindex group "name" = .ok n ∧
        jvalInStrSet n EXCLUDED_GROUPS = false := by
  intro tgs
  induction tgs with
  | nil =>
    intro acc out h gid hgid
    simp only [List.foldlM_nil] at h
    cases h
    exact Or.inl hgid
  | cons g rest ih =>
    intro acc out h gid hgid
    rw [List.foldlM_cons] at h
    obtain ⟨acc', hstep, hrest⟩ := except_bind_ok.mp h
    rcases ih acc' out hrest gid hgid with hin | ⟨group, hg, n, h1, h2, h3⟩
    · rcases migrateUsersGroupsStep_ok user acc g acc' hstep with heq | ⟨gid0, n, heq, h1, h2, h3⟩
      · exact Or.inl (heq ▸ hin)
      · rw [heq] at hin
        rcases List.mem_append.mp hin with hl | hr
        · exact Or.inl hl
        · right
          refine ⟨g, by simp, n, ?_, h2, h3⟩
          simp at hr
          rw [hr]
          exact h1
    · exact Or.inr ⟨group, by simp [hg], n, h1, h2, h3⟩

theorem mapUserGroups_mem (group_name_to_id : List (JVal × JVal)) :
    ∀ (gnames acc1 : List JVal) (macc : Nat) (gid : JVal),
      gid ∈ (gnames.foldl (fun (p : List JVal × Nat) gname =>
        if jvalInStrSet gname EXCLUDED_GROUPS then p
        else
          let g := jget group_name_to_id gname
          if g.truthy then (p.1 ++ [g], p.2) else (p.1, p.2 + 1)) (acc1, macc)).1 →
      gid ∈ acc1 ∨ ∃ gname ∈ gnames, jvalInStrSet gname EXCLUDED_GROUPS = false ∧
        jget group_name_to_id gname = gid ∧ gid.truthy = true := by
  intro gnames
  induction gnames with
  | nil =>
    intro acc1 macc gid h
    exact Or.inl h
  | cons g rest ih =>
    intro acc1 macc gid h
    rw [List.foldl_cons] at h
    by_cases hx : jvalInStrSet g EXCLUDED_GROUPS
    · rw [if_pos hx] at h
      rcases ih acc1 macc gid h with hin | ⟨gn, hgn, h1, h2, h3⟩
      · exact Or.inl hin
      · exact Or.inr ⟨gn, by simp [hgn], h1, h2, h3⟩
    · rw [if_neg hx] at h
      by_cases ht : (jget group_name_to_id g).truthy
      · rw [if_pos ht] at h
        rcases ih (acc1 ++ [jget group_name_to_id g]) macc gid h with hin | ⟨gn, hgn, h1, h2, h3⟩
        · rcases List.mem_append.mp hin with hl | hr
          · exact Or.inl hl
          · right
            refine ⟨g, by simp, by simpa using hx, ?_, ?_⟩
            · simp at hr
              rw [hr]
            · simp at hr
              rw [hr]
              exact ht
        · exact Or.inr ⟨gn, by simp [hgn], h1, h2, h3⟩
      · rw [if_neg ht] at h
        rcases ih acc1 (macc + 1) gid h with hin | ⟨gn, hgn, h1, h2, h3⟩
        · exact Or.inl hin
        · exact Or.inr ⟨gn, by simp [hgn], h1, h2, h3⟩

theorem mapUserGroups_missing_count (group_name_to_id : List (JVal × JVal)) :
    ∀ (gnames acc1 : List JVal) (macc : Nat),
      (gnames.foldl (fun (p : List JVal × Nat) gname =>
        if jvalInStrSet gname EXCLUDED_GROUPS then p
        else
          let g := jget group_name_to_id gname
          if g.truthy then (p.1 ++ [g], p.2) else (p.1, p.2 + 1)) (acc1, macc)).2
      = macc + (gnames.filter (fun g =>
          !jvalInStrSet g EXCLUDED_GROUPS && !(jget group_name_to_id g).truthy)).length := by
  intro gnames
  induction gnames with
  | nil => intro acc1 macc; simp
  | cons g rest ih =>
    intro acc1 macc
    rw [List.foldl_cons, List.filter_cons]
    by_cases hx : jvalInStrSet g EXCLUDED_GROUPS
    · rw [if_pos hx]
      have hb : (!jvalInStrSet g EXCLUDED_GROUPS && !(jget group_name_to_id g).truthy)
          = false := by simp [hx]
      rw [hb]
      simp only [Bool.false_eq_true, if_false]
      exact ih acc1 macc
    · rw [if_neg hx]
      by_cases ht : (jget group_name_to_id g).truthy
      · rw [if_pos ht]
        have hb : (!jvalInStrSet g EXCLUDED_GROUPS && !(jget group_name_to_id g).truthy)
            = false := by simp [ht]
        rw [hb]
        simp only [Bool.false_eq_true, if_false]
        exact ih (acc1 ++ [jget group_name_to_id g]) macc
      · rw [if_neg ht]
        have hb : (!jvalInStrSet g EXCLUDED_GROUPS && !(jget group_name_to_id g).truthy)
            = true := by simp [hx, ht]
        rw [hb]
        simp only [if_true]
        rw [ih]
        simp only [List.length_cons]
        omega

theorem lookup_filter (k : String) (q : String × JVal → Bool)
    (hq : ∀ v, q (k, v) = true) :
    ∀ (fs : List (String × JVal)), (fs.filter q).lookup k = fs.lookup k := by
  intro fs
  induction fs with
  | nil => rfl
  | cons hd tl ih =>
    obtain ⟨k', v⟩ := hd
    by_cases hk : k = k'
    · subst hk
      rw [List.filter_cons, hq v]
      simp [List.lookup]
    · have hbk : (k == k') = false := by simp [hk]
      rw [List.filter_cons]
      by_cases hqv : q (k', v) = true
      · rw [hqv]
        simp only [if_true]
        simp [List.lookup, hbk, ih]
      · simp only [hqv]
        simp [List.lookup, hbk, ih]

theorem processGroup_ok (system_tenant_id : JVal) (acc : GroupFilterAcc) (group : JVal)
    (acc' : GroupFilterAcc) (h : processGroup system_tenant_id acc group = .ok acc') :
    acc'.bulk_group_data = acc.bulk_group_data ∨
    ∃ fs, group = .jobj fs ∧ jvalInStrSet (group.get "name") excluded_group_names = false ∧
      acc'.bulk_group_data = acc.bulk_group_data ++
        [JVal.jobj (fs.filter fun p =>
          !(["created", "lastUpdated", "tenantId", "_id"].contains p.1))] := by
  cases group with
  | jobj fs =>
    simp only [processGroup] at h
    by_cases hn : ((JVal.jobj fs).get "name").truthy
    · rw [if_neg (by simp [hn])] at h
      by_cases hx : jvalInStrSet ((JVal.jobj fs).get "name") excluded_group_names
      · rw [if_pos hx] at h
        cases h
        exact Or.inl rfl
      · rw [if_neg hx] at h
        by_cases htn : (((JVal.jobj fs).get "tenantId") != system_tenant_id) = true
        · rw [if_pos htn] at h
          cases h
          exact Or.inl rfl
        · rw [if_neg htn] at h
          cases h
          exact Or.inr ⟨fs, rfl, by simpa using hx, rfl⟩
    · rw [if_pos (by simp [hn])] at h
      cases h
      exact Or.inl rfl
  | jnull => cases h
  | jbool b => cases h
  | jnum n => cases h
  | jstr str => cases h
  | jarr xs => cases h

theorem migrateAllGroupsFilter_excluded (system_tenant_id : JVal) :
    ∀ (l : List JVal) (acc res : GroupFilterAcc),
      l.foldlM (processGroup system_tenant_id) acc = .ok res →
      (∀ gd ∈ acc.bulk_group_data,
        jvalInStrSet (gd.get "name") excluded_group_names = false) →
      ∀ gd ∈ res.bulk_group_data,
        jvalInStrSet (gd.get "name") excluded_group_names = false := by
  intro l
  induction l with
  | nil =>
    intro acc res h hacc
    simp only [List.foldlM_nil] at h
    cases h
    exact hacc
  | cons g rest ih =>
    intro acc res h hacc
    rw [List.foldlM_cons] at h
    obtain ⟨acc', hstep, hrest⟩ := except_bind_ok.mp h
    refine ih acc' res hrest ?_
    intro gd hgd
    rcases processGroup_ok system_tenant_id acc g acc' hstep with heq | ⟨fs, hfs, hnx, heq⟩
    · exact hacc gd (heq ▸ hgd)
    · rw [heq] at hgd
      rcases List.mem_append.mp hgd with hl | hr
      · exact hacc gd hl
      · have hr' := List.mem_singleton.mp hr
        rw [hr']
        have hname : (JVal.jobj (fs.filter fun p =>
            !(["created", "lastUpdated", "tenantId", "_id"].contains p.1))).get "name"
            = (JVal.jobj fs).get "name" := by
          show ((fs.filter fun p =>
            !(["created", "lastUpdated", "tenantId", "_id"].contains p.1)).lookup "name").getD
              JVal.jnull = (fs.lookup "name").getD JVal.jnull
          rw [lookup_filter "name"
            (fun p => !(["created", "lastUpdated", "tenantId", "_id"].contains p.1))
            (fun v => rfl) fs]
        rw [hname, ← hfs]
        exact hnx

theorem exceptNoVE_ok {α : Type} (a : α) :
    exceptNoVE (Except.ok a : Except PyExc α) := by
  intro e he; cases he

theorem exceptNoVE_pure {α : Type} (a : α) :
    exceptNoVE (pure a : Except PyExc α) :=
  exceptNoVE_ok a

theorem exceptNoVE_error {α : Type} {e0 : PyExc} (h : e0.isValueError = false) :
    exceptNoVE (Except.error e0 : Except PyExc α) := by
  intro e he; cases he; exact h

theorem exceptNoVE_bind {α β : Type} {x : Except PyExc α} {f : α → Except PyExc β}
    (hx : exceptNoVE x) (hf : ∀ a, exceptNoVE (f a)) : exceptNoVE (x >>= f) := by
  intro e he
  cases x with
  | error e0 =>
    have h1 : (Except.error e0 >>= f : Except PyExc β) = Except.error e0 := rfl
    rw [h1] at he
    cases he
    exact hx e rfl
  | ok a =>
    have h1 : (Except.ok a >>= f : Except PyExc β) = f a := rfl
    rw [h1] at he
    exact hf a e he

theorem exceptNoVE_foldlM {σ α : Type} (f : σ → α → Except PyExc σ)
    (hf : ∀ s a, exceptNoVE (f s a)) :
    ∀ (xs : List α) (s : σ), exceptNoVE (xs.foldlM f s) := by
  intro xs
  induction xs with
  | nil =>
    intro s e he
    exact Except.noConfusion he
  | cons x rest ih =>
    intro s
    rw [List.foldlM_cons]
    exact exceptNoVE_bind (hf s x) (fun s2 => ih s2)

theorem jindex_nv (j : JVal) (k : String) : exceptNoVE (jindex j k) := by
  intro e he
  cases j <;> simp only [jindex] at he
  case jobj fs =>
    cases hl : fs.lookup k with
    | some v => rw [hl] at he; cases he
    | none => rw [hl] at he; cases he; rfl
  all_goals (cases he; rfl)

theorem pyIter_nv (j : JVal) : exceptNoVE (pyIter j) := by
  intro e he
  cases j <;> simp only [pyIter] at he <;> cases he <;> rfl

theorem pyGetAttr_nv (j : JVal) (k : String) : exceptNoVE (pyGetAttr j k) := by
  intro e he
  cases j <;> simp only [pyGetAttr] at he <;> cases he <;> rfl

theorem pyGetAttrD_nv (j : JVal) (k : String) (d : JVal) :
    exceptNoVE (pyGetAttrD j k d) := by
  intro e he
  cases j <;> simp only [pyGetAttrD] at he <;> cases he <;> rfl

theorem respJsonTry_nv (r : Option Resp) : exceptNoVE (respJsonTry r) := by
  intro e he
  cases r with
  | none => simp only [respJsonTry] at he; cases he; rfl
  | some r =>
    simp only [respJsonTry] at he
    cases hj : r.json with
    | some j => rw [hj] at he; cases he
    | none => rw [hj] at he; cases he; rfl

theorem existingSharesList_nv (j : JVal) : exceptNoVE (existingSharesList j) := by
  intro e he
  cases j <;> simp only [existingSharesList] at he
  case jobj fs =>
    by_cases hf : fs.isEmpty = true <;> simp only [hf] at he <;>
      simp only [if_true, if_false, Bool.false_eq_true] at he <;> cases he <;> rfl
  case jstr s =>
    by_cases hs : s.isEmpty = true <;> simp only [hs] at he <;>
      simp only [if_true, if_false, Bool.false_eq_true] at he <;> cases he <;> rfl
  case jarr xs => cases he
  all_goals (cases he; rfl)

theorem existingShareKeys_nv (xs : List JVal) : exceptNoVE (existingShareKeys xs) := by
  unfold existingShareKeys
  refine exceptNoVE_foldlM _ ?_ xs []
  intro ks share
  refine exceptNoVE_bind (pyGetAttr_nv _ _) ?_
  intro t
  dsimp only
  split
  · exact exceptNoVE_pure _
  · split
    · exact exceptNoVE_pure _
    · exact exceptNoVE_pure _

theorem prepareNewShares_nv (maps : ShareMaps) (shares : List JVal) :
    exceptNoVE (prepareNewShares maps shares) := by
  unfold prepareNewShares
  refine exceptNoVE_foldlM _ ?_ shares []
  intro ns share
  refine exceptNoVE_bind (jindex_nv _ _) ?_
  intro stype
  dsimp only
  split
  · refine exceptNoVE_bind (jindex_nv _ _) ?_
    intro sid
    dsimp only
    split
    · exact exceptNoVE_pure _
    · exact exceptNoVE_pure _
  · split
    · refine exceptNoVE_bind (jindex_nv _ _) ?_
      intro sid
      dsimp only
      split
      · exact exceptNoVE_pure _
      · exact exceptNoVE_pure _
    · exact exceptNoVE_pure _

theorem dedupByOid_nv (ds : List JVal) : exceptNoVE (dedupByOid ds) := by
  unfold dedupByOid
  refine exceptNoVE_bind ?_ ?_
  · refine exceptNoVE_foldlM _ ?_ ds []
    intro m d
    exact exceptNoVE_bind (pyGetAttr_nv _ _) (fun _ => exceptNoVE_pure _)
  · intro m
    exact exceptNoVE_pure _

theorem shareTargetPhase_nv (env : ShareEnv) (co : Bool) (sid tid : String)
    (summary : ShareSummary) (results : List ShareDashResult)
    (new_shares : List JVal) (poid : JVal) (chosen : Resp) :
    exceptNoVE (shareTargetPhase env co sid tid summary results new_shares poid chosen) := by
  unfold shareTargetPhase
  refine exceptNoVE_bind (respJsonTry_nv _) ?_
  intro ejson
  dsimp only
  refine exceptNoVE_bind (pyGetAttrD_nv _ _ _) ?_
  intro existingJ
  dsimp only
  refine exceptNoVE_bind (existingSharesList_nv _) ?_
  intro existing_list
  dsimp only
  refine exceptNoVE_bind (existingShareKeys_nv _) ?_
  intro existing_keys
  dsimp only
  split
  · exact exceptNoVE_pure _
  · split
    · exact exceptNoVE_bind (pyGetAttr_nv _ _) (fun _ => exceptNoVE_pure _)
    · exact exceptNoVE_pure _

theorem processShareDashboard_nv (env : ShareEnv) (maps : ShareMaps) (co : Bool)
    (st : ShareSummary × List ShareDashResult) (pair : String × String) :
    exceptNoVE (processShareDashboard env maps co st pair) := by
  obtain ⟨sid, tid⟩ := pair
  obtain ⟨summary, results⟩ := st
  unfold processShareDashboard
  dsimp only
  cases env.sourceShares sid with
  | none => exact exceptNoVE_pure _
  | some r =>
    dsimp only
    split
    · exact exceptNoVE_pure _
    · refine exceptNoVE_bind (respJsonTry_nv _) ?_
      intro response_json
      dsimp only
      refine exceptNoVE_bind (pyGetAttrD_nv _ _ _) ?_
      intro sharesToJ
      dsimp only
      split
      · exact exceptNoVE_pure _
      · refine exceptNoVE_bind (pyIter_nv _) ?_
        intro dashboard_shares
        dsimp only
        refine exceptNoVE_bind (pyGetAttr_nv _ _) ?_
        intro source_owner_id
        dsimp only
        refine exceptNoVE_bind (prepareNewShares_nv _ _) ?_
        intro new_shares
        dsimp only
        cases env.targetSharesAdmin tid with
        | none => exact exceptNoVE_pure _
        | some tr0 =>
          dsimp only
          split
          · cases env.targetSharesPlain tid with
            | some tr2 =>
              dsimp only
              split
              · exact shareTargetPhase_nv env co sid tid summary results
                  new_shares (jget maps.user_mapping source_owner_id) tr2
              · exact exceptNoVE_pure _
            | none => exact exceptNoVE_pure _
          · split
            · exact shareTargetPhase_nv env co sid tid summary results
                new_shares (jget maps.user_mapping source_owner_id) tr0
            · exact exceptNoVE_pure _

theorem exceptNoVE_ite {α : Type} (c : Prop) [Decidable c] {x y : Except PyExc α}
    (hx : c → exceptNoVE x) (hy : ¬c → exceptNoVE y) :
    exceptNoVE (if c then x else y) := by
  by_cases h : c
  · simpa [h] using hx h
  · simpa [h] using hy h

theorem exceptNoVE_exceptReplace {α β : Type} (x : Except PyExc α) (b : β)
    (hx : exceptNoVE x) : exceptNoVE (exceptReplace x b) := by
  intro e he
  cases x with
  | error e0 =>
    simp only [exceptReplace] at he
    cases he
    exact hx _ rfl
  | ok a => exact Except.noConfusion he

theorem map_isEmpty_eq {α β : Type} (f : α → β) (l : List α) :
    (l.map f).isEmpty = l.isEmpty := by cases l <;> rfl

theorem migrate_dashboard_shares_nv (env : ShareEnv)
    (src tgt : List String) (co : Bool)
    (hs : src.isEmpty = false) (ht : tgt.isEmpty = false)
    (hl : src.length = tgt.length) :
    exceptNoVE (migrate_dashboard_shares env src tgt co) := by
  have h1 : (src.isEmpty || tgt.isEmpty) = false := by simp [hs, ht]
  have h2 : ¬(src.length ≠ tgt.length) := fun hne => hne hl
  unfold migrate_dashboard_shares
  simp only [h1, Bool.false_eq_true, if_false]
  rw [if_neg h2]
  cases buildShareMaps env with
  | none => exact exceptNoVE_ok _
  | some maps =>
    exact exceptNoVE_bind
      (exceptNoVE_foldlM _ (fun s a => processShareDashboard_nv env maps co s a) _ _)
      (fun st => exceptNoVE_ok _)

theorem dashResolveExport_nv (env : DashEnv) (ids names : List String) :
    exceptNoVE (dashResolveExport env ids names) := by
  unfold dashResolveExport
  split
  · exact exceptNoVE_ok _
  · split
    next e heq => exact exceptNoVE_error (dedupByOid_nv _ e heq)
    next dd heq => exact exceptNoVE_ok _

theorem migrateDashboardsBulkPhase_nv (env : DashEnv) (action : Option String)
    (rp ms co : Bool) (bulkData : List JVal) (idToTitle : List (String × String))
    (s0 : DashSummary) :
    exceptNoVE (migrateDashboardsBulkPhase env action rp ms co bulkData idToTitle s0) := by
  unfold migrateDashboardsBulkPhase
  dsimp only
  cases hJ : (safeJson (env.bulkImport rp action bulkData)).1 with
  | none => exact exceptNoVE_ok _
  | some j =>
    cases j with
    | jobj fs =>
      refine exceptNoVE_ite _ (fun _ => exceptNoVE_ok _) (fun _ => ?_)
      refine exceptNoVE_ite _ (fun _ => exceptNoVE_ok _) (fun _ => ?_)
      refine exceptNoVE_ite _ (fun _ => exceptNoVE_ok _) (fun _ => ?_)
      refine exceptNoVE_ite _ (fun _ => exceptNoVE_ok _) (fun _ => ?_)
      refine exceptNoVE_ite _ (fun _ => exceptNoVE_ok _) (fun hne => ?_)
      refine exceptNoVE_exceptReplace _ _
        (migrate_dashboard_shares_nv _ _ _ _ ?_ ?_ ?_)
      · rw [map_isEmpty_eq]
        simpa using hne
      · rw [map_isEmpty_eq]
        simpa using hne
      · simp
    | jnull => exact exceptNoVE_ok _
    | jbool b => exact exceptNoVE_ok _
    | jnum n => exact exceptNoVE_ok _
    | jstr s => exact exceptNoVE_ok _
    | jarr xs => exact exceptNoVE_ok _

theorem migrate_dashboards_nv (env : DashEnv) (ids names : List String)
    (action : Option String) (rp ms co : Bool)
    (h1 : ¬(ids.isEmpty = false ∧ names.isEmpty = false))
    (h2 : ¬(ids.isEmpty = true ∧ names.isEmpty = true))
    (h3 : ¬(ms = false ∧ co = true)) :
    exceptNoVE (migrate_dashboards env ids names action rp ms co) := by
  have hc1 : (!ids.isEmpty && !names.isEmpty) = false := by
    cases hI : ids.isEmpty <;> cases hN : names.isEmpty <;> simp_all
  have hc2 : (ids.isEmpty && names.isEmpty) = false := by
    cases hI : ids.isEmpty <;> cases hN : names.isEmpty <;> simp_all
  have hc3 : (!ms && co) = false := by
    cases ms <;> cases co <;> simp_all
  unfold migrate_dashboards
  simp only [hc1, hc2, hc3, Bool.false_eq_true, if_false]
  refine exceptNoVE_bind (dashResolveExport_nv env ids names) ?_
  intro trip
  obtain ⟨bulkData, idToTitle, s0⟩ := trip
  exact exceptNoVE_ite _ (fun _ => exceptNoVE_ok _)
    (fun _ => migrateDashboardsBulkPhase_nv env action rp ms co bulkData idToTitle s0)

/-! # Claim theorems -/

/-- C1 (amended): when a dashboard batch's bulk call raises, the salvage loop
adds, for each dashboard of the batch, either the items of its single-call
summary or exactly one failed entry when the retry raises; provided each
non-raising single call returns a summary accounting for exactly one item
(as happens when the target's bulk response covers each submitted dashboard),
the batch contributes exactly its size to the overall totals. -/
theorem dash_batch_salvage_total (env : DashEnv) (p : DashParams)
    (acc : AllSummary) (log : List DashCall) (batch : List String) (e : PyExc)
    (hraise : callMigrateDashboards env p batch p.action = .error e)
    (hone : ∀ did ∈ batch, salvageContribution env p did = 1) :
    (dashBatchStep env p (acc, log) batch).1.total = acc.total + batch.length := by
  have hstep : dashBatchStep env p (acc, log) batch
      = batch.foldl (dashSalvageStep env p) (acc, log ++ [⟨batch, p.action⟩]) := by
    unfold dashBatchStep; rw [hraise]
  rw [hstep, dashSalvage_fold_total, sum_map_ones _ batch hone]

/-- C1 counterexample: a batch of two dashboards whose bulk call raises (a
200-status non-JSON body surfaces during share migration) and whose two
salvage retries each return a 201 bulk response that accounts for no items:
every dashboard is silently absent from the summary, so the total processed
count is 0, not the batch size 2. -/
theorem dash_batch_salvage_total_cex :
    callMigrateDashboards c1Env c1Params ["d1", "d2"] c1Params.action
      = .error (.jsonError "invalid JSON: bad") ∧
    (migrate_all_dashboards_batches c1Env c1Params ["d1", "d2"] 10).1.total = 0 ∧
    ¬ ((migrate_all_dashboards_batches c1Env c1Params ["d1", "d2"] 10).1.total
        = ["d1", "d2"].length) :=
  ⟨by decide, by decide, by decide⟩

/-- C1 witness. -/
theorem dash_batch_salvage_total_witness :
    (dashBatchStep nullDashEnv ⟨none, false, false, true⟩ ({}, []) ["a", "b"]).1.total
      = AllSummary.total {} + ["a", "b"].length :=
  dash_batch_salvage_total nullDashEnv ⟨none, false, false, true⟩ {} [] ["a", "b"]
    (.valueError "The 'change_ownership' parameter requires 'migrate_share=True'.")
    (by decide) (by decide)

/-- C2: when no batch call of the migrate-all-dashboards loop raises, the
overall succeeded/skipped/failed lists are exactly the concatenations of the
per-batch summaries' lists, and the aggregate counts are the sums of the
per-batch counts. -/
theorem all_dashboards_no_raise_concat (env : DashEnv) (p : DashParams)
    (ids : List String) (bs : Nat)
    (hok : ∀ b ∈ chunkList ids bs, ∃ s, callMigrateDashboards env p b p.action = .ok s) :
    (migrate_all_dashboards_batches env p ids bs).1.succeeded
        = (chunkList ids bs).flatMap (fun b => (batchOkSummary env p b).succeeded) ∧
    (migrate_all_dashboards_batches env p ids bs).1.skipped
        = (chunkList ids bs).flatMap (fun b => (batchOkSummary env p b).skipped) ∧
    (migrate_all_dashboards_batches env p ids bs).1.failed
        = (chunkList ids bs).flatMap (fun b => (batchOkSummary env p b).failed) ∧
    (migrate_all_dashboards_batches env p ids bs).1.succeeded.length
        = ((chunkList ids bs).map (fun b => (batchOkSummary env p b).succeeded.length)).sum ∧
    (migrate_all_dashboards_batches env p ids bs).1.skipped.length
        = ((chunkList ids bs).map (fun b => (batchOkSummary env p b).skipped.length)).sum ∧
    (migrate_all_dashboards_batches env p ids bs).1.failed.length
        = ((chunkList ids bs).map (fun b => (batchOkSummary env p b).failed.length)).sum := by
  have h := dashBatches_fold_ok env p (chunkList ids bs) {} [] hok
  unfold migrate_all_dashboards_batches
  have hs := h.1
  have hk := h.2.1
  have hf := h.2.2
  simp only [AllSummary.succeeded, AllSummary.skipped, AllSummary.failed] at hs hk hf
  refine ⟨by simpa using hs, by simpa using hk, by simpa using hf, ?_, ?_, ?_⟩
  · rw [hs]
    simp only [List.nil_append, List.length_flatMap]
    rfl
  · rw [hk]
    simp only [List.nil_append, List.length_flatMap]
    rfl
  · rw [hf]
    simp only [List.nil_append, List.length_flatMap]
    rfl

/-- C2 witness. -/
theorem all_dashboards_no_raise_concat_witness :
    (migrate_all_dashboards_batches nullDashEnv {} ["a", "b", "c"] 2).1.succeeded
        = (chunkList ["a", "b", "c"] 2).flatMap
            (fun b => (batchOkSummary nullDashEnv {} b).succeeded) ∧
    (migrate_all_dashboards_batches nullDashEnv {} ["a", "b", "c"] 2).1.skipped
        = (chunkList ["a", "b", "c"] 2).flatMap
            (fun b => (batchOkSummary nullDashEnv {} b).skipped) ∧
    (migrate_all_dashboards_batches nullDashEnv {} ["a", "b", "c"] 2).1.failed
        = (chunkList ["a", "b", "c"] 2).flatMap
            (fun b => (batchOkSummary nullDashEnv {} b).failed) ∧
    (migrate_all_dashboards_batches nullDashEnv {} ["a", "b", "c"] 2).1.succeeded.length
        = ((chunkList ["a", "b", "c"] 2).map
            (fun b => (batchOkSummary nullDashEnv {} b).succeeded.length)).sum ∧
    (migrate_all_dashboards_batches nullDashEnv {} ["a", "b", "c"] 2).1.skipped.length
        = ((chunkList ["a", "b", "c"] 2).map
            (fun b => (batchOkSummary nullDashEnv {} b).skipped.length)).sum ∧
    (migrate_all_dashboards_batches nullDashEnv {} ["a", "b", "c"] 2).1.failed.length
        = ((chunkList ["a", "b", "c"] 2).map
            (fun b => (batchOkSummary nullDashEnv {} b).failed.length)).sum :=
  all_dashboards_no_raise_concat nullDashEnv {} ["a", "b", "c"] 2 (by
    intro b hb
    simp [chunkList, chunkListAux] at hb
    rcases hb with rfl | rfl
    · exact ⟨_, rfl⟩
    · exact ⟨_, rfl⟩)

/-- C3 (amended): when a batch's bulk call raises, the dashboard orchestrator
retries every item of the batch individually with the conservative
action="skip" regardless of the caller's action, but the datamodel
orchestrator retries every item with the CALLER'S ORIGINAL action, not a
conservative fallback. -/
theorem salvage_call_actions (envd : DashEnv) (p : DashParams)
    (acc : AllSummary) (log : List DashCall) (batch : List String) (e : PyExc)
    (hraise : callMigrateDashboards envd p batch p.action = .error e)
    (mig : List String → Option String → Except PyExc DashSummary)
    (action : Option String) (acc2 : AllSummary) (log2 : List DashCall)
    (batch2 : List String) (e2 : PyExc)
    (hraise2 : mig batch2 action = .error e2) :
    (dashBatchStep envd p (acc, log) batch).2
        = log ++ [⟨batch, p.action⟩]
          ++ batch.map (fun did => (⟨[did], some "skip"⟩ : DashCall)) ∧
    (dmBatchStep mig action (acc2, log2) batch2).2
        = log2 ++ [⟨batch2, action⟩]
          ++ batch2.map (fun i => (⟨[i], action⟩ : DashCall)) := by
  constructor
  · have hstep : dashBatchStep envd p (acc, log) batch
        = batch.foldl (dashSalvageStep envd p) (acc, log ++ [⟨batch, p.action⟩]) := by
      unfold dashBatchStep; rw [hraise]
    rw [hstep, dashSalvage_fold_log]
  · have hstep : dmBatchStep mig action (acc2, log2) batch2
        = batch2.foldl (dmSalvageStep mig action) (acc2, log2 ++ [⟨batch2, action⟩]) := by
      unfold dmBatchStep; rw [hraise2]
    rw [hstep, dmSalvage_fold_log]

/-- C3 counterexample: a datamodel batch run with action="overwrite" whose
bulk call raises; the recorded salvage calls use action="overwrite", not the
conservative "skip" the claim asserts. -/
theorem salvage_call_actions_cex :
    c3Mig ["m1", "m2"] (some "overwrite") = .error (.valueError "boom") ∧
    (dmBatchStep c3Mig (some "overwrite") ({}, []) ["m1", "m2"]).2
      = [⟨["m1", "m2"], some "overwrite"⟩, ⟨["m1"], some "overwrite"⟩,
         ⟨["m2"], some "overwrite"⟩] ∧
    (some "overwrite" : Option String) ≠ some "skip" :=
  ⟨by decide, by decide, by decide⟩

/-- C3 witness. -/
theorem salvage_call_actions_witness :
    (dashBatchStep nullDashEnv ⟨none, false, false, true⟩ ({}, []) ["a"]).2
        = [] ++ [⟨["a"], none⟩]
          ++ ["a"].map (fun did => (⟨[did], some "skip"⟩ : DashCall)) ∧
    (dmBatchStep c3Mig (some "overwrite") ({}, []) ["m1", "m2"]).2
        = [] ++ [⟨["m1", "m2"], some "overwrite"⟩]
          ++ ["m1", "m2"].map (fun i => (⟨[i], some "overwrite"⟩ : DashCall)) :=
  salvage_call_actions nullDashEnv ⟨none, false, false, true⟩ {} [] ["a"]
    (.valueError "The 'change_ownership' parameter requires 'migrate_share=True'.")
    (by decide) c3Mig (some "overwrite") {} [] ["m1", "m2"]
    (.valueError "boom") (by decide)

/-- C5 (amended): the share/ownership source-to-target dashboard mapping and
the datamodel title resolution take the FIRST match (the dashboard mapping
logging a collision warning), while the user/group/role name-to-id
dictionaries (dict comprehensions / dict assignment) keep the LAST occurrence
of a repeated key, silently. -/
theorem mapping_collision_policy :
    (∀ (t2t s2t : List (String × String)) (src title : String),
       (src, title) ∈ s2t → (s2t.map Prod.fst).Nodup →
       alookup (buildSourceToTarget t2t s2t).1 src
           = ((t2t.filter (fun p => p.2 == title)).map (·.1)).head?
       ∧ ∀ tid rest2,
           (t2t.filter (fun p => p.2 == title)).map (·.1) = tid :: rest2 →
           rest2 ≠ [] →
           collisionWarn title ∈ (buildSourceToTarget t2t s2t).2) ∧
    (∀ (names : List String) (pages : List (Option Resp))
       (found : List (String × String)) (dups : List (String × Nat))
       (scanned : List JVal),
       dmResolveLoop names pages [] [] [] 0 = .ok (found, dups, scanned) →
       ∀ t, alookup found t = firstTitleOid names scanned t) ∧
    (∀ (seq : JVal) (key val : String) (items : List JVal)
       (m : List (JVal × JVal)) (k : JVal),
       pyIter seq = .ok items → dictComp seq key val = .ok m →
       alookup m k = lastValueFor items key val k) := by
  refine ⟨?_, ?_, ?_⟩
  · intro t2t s2t src title hmem hnodup
    have h := s2t_fold_spec (titleToTargets t2t) s2t ([], []) src title hmem hnodup rfl
    constructor
    · have h1 := h.1
      rw [titleToTargets_lookup] at h1
      unfold buildSourceToTarget
      exact h1
    · intro tid rest2 hEq hne
      unfold buildSourceToTarget
      apply h.2 tid rest2 ?_ hne
      rw [titleToTargets_lookup]
      exact hEq
  · intro names pages found dups scanned h t
    obtain ⟨delta, hsc, hlook⟩ := dmResolveLoop_spec names pages [] [] [] 0
      found dups scanned h
    have hd : scanned = delta := by simpa using hsc
    subst hd
    rw [hlook t]
    show (Option.none).or _ = _
    cases firstTitleOid names scanned t <;> rfl
  · intro seq key val items m k hit h
    exact dictComp_last seq key val m items hit h k

/-- C5 counterexample: the target_user_map dict comprehension of
migrate_dashboard_shares on a target listing with a duplicated e-mail maps
the e-mail to the LAST listed id, not the first match. -/
theorem mapping_collision_policy_cex :
    dictComp c5TargetUsers "email" "_id"
      = .ok [(JVal.jstr "dup@x", JVal.jstr "u2")] ∧
    jget [(JVal.jstr "dup@x", JVal.jstr "u2")] (JVal.jstr "dup@x") = JVal.jstr "u2" ∧
    JVal.jstr "u2" ≠ JVal.jstr "u1" :=
  ⟨by decide, by decide, by decide⟩

/-- C5 witness. -/
theorem mapping_collision_policy_witness :
    alookup (buildSourceToTarget [("t1", "T"), ("t2", "T")] [("s1", "T")]).1 "s1"
        = (([("t1", "T"), ("t2", "T")].filter (fun p => p.2 == "T")).map (·.1)).head? ∧
    collisionWarn "T" ∈ (buildSourceToTarget [("t1", "T"), ("t2", "T")] [("s1", "T")]).2 := by
  have h := mapping_collision_policy.1 [("t1", "T"), ("t2", "T")] [("s1", "T")]
    "s1" "T" (by decide) (by decide)
  exact ⟨h.1, h.2 "t1" ["t2"] (by decide) (by decide)⟩

/-- C9: no group id whose target group name is in the excluded set reaches a
user payload (migrate_users comprehension and migrate_all_users mapping
loop), and migrate_all_groups never includes a group named Admins, Everyone
or "All users in system" in its bulk payload. -/
theorem excluded_groups_never_in_payload :
    (∀ (target_groups : List JVal) (user : JVal) (out : List JVal) (gid : JVal),
       migrateUsersGroupsField target_groups user = .ok out →
       (∀ group ∈ target_groups, jindex group "_id" = .ok gid →
         ∀ n, jindex group "name" = .ok n → jvalInStrSet n EXCLUDED_GROUPS = true) →
       gid ∉ out) ∧
    (∀ (group_name_to_id : List (JVal × JVal)) (gnames : List JVal) (gid : JVal),
       (∀ gname, alookup group_name_to_id gname = some gid →
         jvalInStrSet gname EXCLUDED_GROUPS = true) →
       gid ∉ (mapUserGroups group_name_to_id gnames).1) ∧
    (∀ (system_tenant_id : JVal) (source_groups : List JVal) (res : GroupFilterAcc),
       migrateAllGroupsFilter system_tenant_id source_groups = .ok res →
       ∀ gd ∈ res.bulk_group_data,
         jvalInStrSet (gd.get "name") excluded_group_names = false) := by
  refine ⟨?_, ?_, ?_⟩
  · intro tgs user out gid hok hexc hmem
    rcases migrateUsersGroupsField_mem user tgs [] out hok gid hmem with
      hin | ⟨group, hg, n, h1, h2, h3⟩
    · cases hin
    · have hx := hexc group hg h1 n h2
      rw [h3] at hx
      cases hx
  · intro m gnames gid hexc hmem
    rcases mapUserGroups_mem m gnames [] 0 gid hmem with hin | ⟨gname, _, h1, h2, h3⟩
    · cases hin
    · have hsome : alookup m gname = some gid := by
        unfold jget at h2
        cases hx : alookup m gname with
        | none =>
          rw [hx] at h2
          simp at h2
          rw [← h2] at h3
          cases h3
        | some v =>
          rw [hx] at h2
          simp only [Option.getD_some] at h2
          cases h2
          rfl
      have := hexc gname hsome
      rw [h1] at this
      cases this
  · intro stid sg res h gd hgd
    refine migrateAllGroupsFilter_excluded stid sg {} res h ?_ gd hgd
    intro gd' hgd'
    exact absurd hgd' (List.not_mem_nil gd')

/-- C9 witness. -/
theorem excluded_groups_never_in_payload_witness :
    (JVal.jstr "g1") ∉ ([] : List JVal) ∧
    (JVal.jstr "g1") ∉ (mapUserGroups [(JVal.jstr "Everyone", JVal.jstr "g1")]
        [JVal.jstr "Everyone"]).1 ∧
    jvalInStrSet ((JVal.jobj [("name", JVal.jstr "Dev")]).get "name")
        excluded_group_names = false := by
  refine ⟨?_, ?_, ?_⟩
  · refine excluded_groups_never_in_payload.1
      [JVal.jobj [("name", JVal.jstr "Everyone"), ("_id", JVal.jstr "g1")]]
      (JVal.jobj [("groups", JVal.jarr [JVal.jobj [("name", JVal.jstr "Everyone")]])])
      [] (JVal.jstr "g1") (by decide) ?_
    intro group hg hid n hn
    rw [List.mem_singleton.mp hg] at hn
    have hn' : Except.ok (ε := PyExc) (JVal.jstr "Everyone") = Except.ok n := hn
    cases hn'
    decide
  · refine excluded_groups_never_in_payload.2.1
      [(JVal.jstr "Everyone", JVal.jstr "g1")] [JVal.jstr "Everyone"]
      (JVal.jstr "g1") ?_
    intro gname hg
    by_cases hb : (gname == JVal.jstr "Everyone") = true
    · rw [JVal.eq_of_beq _ _ hb]
      decide
    · simp only [alookup, hb] at hg
      cases hg
  · exact excluded_groups_never_in_payload.2.2 JVal.jnull
      [JVal.jobj [("name", JVal.jstr "Dev"), ("tenantId", JVal.jnull)]]
      ⟨[JVal.jobj [("name", JVal.jstr "Dev")]], 0, 0⟩ (by decide)
      (JVal.jobj [("name", JVal.jstr "Dev")]) (by decide)

/-- C4 (amended): every requested datamodel name is either resolved or added
to the failed list, and every non-excluded group membership that has no
target mapping is counted in missing_group_mappings_count; unresolved
user/group shares in migrate_dashboard_shares, however, are silently dropped
from the prepared payload, leaving no trace in the returned results (see the
counterexample). -/
theorem unmatched_entities_reported :
    (∀ (names : List String) (found : List (String × String)) (name : String),
       name ∈ names →
       (alookup found name).isSome = true ∨
         ({ title := some name,
            reason := some ("Datamodel '" ++ name ++ "' not found in source.") } : MigItem)
           ∈ dmResolveFailed names found) ∧
    (∀ (group_name_to_id : List (JVal × JVal)) (gnames : List JVal),
       (mapUserGroups group_name_to_id gnames).2
         = (gnames.filter (fun g => !jvalInStrSet g EXCLUDED_GROUPS
             && !(jget group_name_to_id g).truthy)).length) := by
  constructor
  · intro names found name hmem
    by_cases h : (alookup found name).isSome = true
    · exact Or.inl h
    · right
      unfold dmResolveFailed
      apply List.mem_filterMap.mpr
      refine ⟨name, hmem, ?_⟩
      rw [if_neg h]
  · intro m gnames
    simpa using mapUserGroups_missing_count m gnames [] 0

/-- C4 counterexample: a source dashboard share whose user has no match in
the target environment leaves the run of migrate_dashboard_shares exactly
equal to a run in which that share does not exist at all — the unresolved
share is silently dropped, not reported. -/
theorem unmatched_entities_reported_cex :
    migrate_dashboard_shares c4ShareEnvWithShare ["d1"] ["t1"] false
      = migrate_dashboard_shares c4ShareEnvNoShare ["d1"] ["t1"] false ∧
    migrate_dashboard_shares c4ShareEnvWithShare ["d1"] ["t1"] false
      = .ok (.result 1 0 0 []) :=
  ⟨by decide, by decide⟩

/-- C4 witness. -/
theorem unmatched_entities_reported_witness :
    ((alookup ([] : List (String × String)) "Sales Model").isSome = true ∨
      ({ title := some "Sales Model",
         reason := some "Datamodel 'Sales Model' not found in source." } : MigItem)
        ∈ dmResolveFailed ["Sales Model"] []) ∧
    (mapUserGroups [] [JVal.jstr "Dev"]).2
      = ([JVal.jstr "Dev"].filter (fun g => !jvalInStrSet g EXCLUDED_GROUPS
          && !(jget [] g).truthy)).length :=
  ⟨unmatched_entities_reported.1 ["Sales Model"] [] "Sales Model" (by decide),
   unmatched_entities_reported.2 [] [JVal.jstr "Dev"]⟩

/-- C6: name-based ID mapping is deterministic and idempotent — building the
user/group maps and the composed source-to-target id mapping twice over the
same source and target listings yields identical results (the constructions
are pure functions of the two lists). -/
theorem name_mapping_idempotent (env env' : ShareEnv) (roles roles' : List JVal)
    (henv : env = env') (hroles : roles = roles') :
    buildShareMaps env = buildShareMaps env' ∧
    buildNameIdMap roles = buildNameIdMap roles' := by
  subst henv; subst hroles; exact ⟨rfl, rfl⟩

/-- C6 witness. -/
theorem name_mapping_idempotent_witness :
    buildShareMaps quietShareEnv = buildShareMaps quietShareEnv ∧
    buildNameIdMap [.jobj [("name", .jstr "admin"), ("_id", .jstr "r1")]]
      = buildNameIdMap [.jobj [("name", .jstr "admin"), ("_id", .jstr "r1")]] :=
  name_mapping_idempotent quietShareEnv quietShareEnv _ _ rfl rfl

/-- C8: for each of the five supported HTTP methods, _make_request returns
None exactly when the transport raises a RequestException, and returns the
raw response object for every completed exchange regardless of status code. -/
theorem make_request_none_iff (env : HttpEnv) (method base_url endpoint : String)
    (data : Option JVal)
    (hm : method = "GET" ∨ method = "POST" ∨ method = "PUT" ∨ method = "PATCH"
      ∨ method = "DELETE") :
    (make_request env method base_url endpoint data = .ok none ↔
      ∃ msg, env.transport method (base_url ++ endpoint) data = .requestExc msg) ∧
    (∀ r, env.transport method (base_url ++ endpoint) data = .completed r →
      make_request env method base_url endpoint data = .ok (some r)) := by
  unfold make_request
  rw [if_pos hm]
  constructor
  · cases h : env.transport method (base_url ++ endpoint) data with
    | completed r => simp [h]
    | requestExc msg => simp [h]
  · intro r h
    rw [h]

/-- C8 witness. -/
theorem make_request_none_iff_witness :
    make_request ⟨fun _ _ _ => .requestExc "connection reset"⟩ "GET" "https://s"
      "/api/v1/users" none = .ok none :=
  (make_request_none_iff ⟨fun _ _ _ => .requestExc "connection reset"⟩ "GET"
    "https://s" "/api/v1/users" none (Or.inl rfl)).1.mpr ⟨"connection reset", rfl⟩

/-- C10: convert_utc_to_local is total on strings and never raises — it
returns None exactly on the empty (falsy) input, the formatted local time
when the parse pipeline succeeds, and an "Invalid timestamp:"-prefixed string
when the pipeline raises. -/
theorem convert_utc_to_local_total (pipeline : String → Except String String)
    (utc_str : String) :
    (convert_utc_to_local pipeline utc_str = none ↔ utc_str = "") ∧
    (∀ t, utc_str ≠ "" → pipeline (utc_str.replace "Z" "+00:00") = .ok t →
      convert_utc_to_local pipeline utc_str = some t) ∧
    (∀ e, utc_str ≠ "" → pipeline (utc_str.replace "Z" "+00:00") = .error e →
      convert_utc_to_local pipeline utc_str
        = some ("Invalid timestamp: " ++ utc_str ++ " - " ++ e)) := by
  refine ⟨?_, ?_, ?_⟩
  · constructor
    · intro h
      by_contra hne
      unfold convert_utc_to_local at h
      rw [if_neg hne] at h
      cases hp : pipeline (utc_str.replace "Z" "+00:00") <;> rw [hp] at h <;> cases h
    · intro h
      unfold convert_utc_to_local
      rw [if_pos h]
  · intro t hne hp
    unfold convert_utc_to_local
    rw [if_neg hne, hp]
  · intro e hne hp
    unfold convert_utc_to_local
    rw [if_neg hne, hp]

/-- C10 witness. -/
theorem convert_utc_to_local_total_witness :
    convert_utc_to_local (fun _ => .ok "2025-05-14 12:24:33 EDT")
      "2025-05-14T16:24:33.537Z" = some "2025-05-14 12:24:33 EDT" :=
  (convert_utc_to_local_total (fun _ => .ok "2025-05-14 12:24:33 EDT")
    "2025-05-14T16:24:33.537Z").2.1 "2025-05-14 12:24:33 EDT"
    (by decide) rfl

/-- C7 (amended): `migrate_dashboards` raises an explicit `ValueError` exactly
when the arguments are one of the three invalid combinations (both id and
name lists given, neither given, or `change_ownership` without
`migrate_share`); with valid arguments no `ValueError` is ever raised.  The
claim's second half does not hold: with valid arguments other exception types
can still propagate out of the method (see the counterexample) instead of
being converted to an error payload in the summary. -/
theorem migrate_dashboards_valueError_policy (env : DashEnv)
    (ids names : List String) (action : Option String) (rp ms co : Bool) :
    (∃ m, migrate_dashboards env ids names action rp ms co
        = .error (.valueError m)) ↔
      ((ids.isEmpty = false ∧ names.isEmpty = false) ∨
       (ids.isEmpty = true ∧ names.isEmpty = true) ∨
       (ms = false ∧ co = true)) := by
  constructor
  · rintro ⟨m, hm⟩
    by_contra hno
    have h1 : ¬(ids.isEmpty = false ∧ names.isEmpty = false) :=
      fun hc => hno (Or.inl hc)
    have h2 : ¬(ids.isEmpty = true ∧ names.isEmpty = true) :=
      fun hc => hno (Or.inr (Or.inl hc))
    have h3 : ¬(ms = false ∧ co = true) :=
      fun hc => hno (Or.inr (Or.inr hc))
    have hnv := migrate_dashboards_nv env ids names action rp ms co h1 h2 h3
    have hfalse := hnv _ hm
    simp [PyExc.isValueError] at hfalse
  · intro h
    by_cases hI : ids.isEmpty = true
    · by_cases hN : names.isEmpty = true
      · refine ⟨"Provide either 'dashboard_ids' or 'dashboard_names'.", ?_⟩
        unfold migrate_dashboards
        rw [hI, hN]
        simp
      · obtain d1 | d2 | d3 := h
        · exact absurd d1.1 (by simp [hI])
        · exact absurd d2.2 hN
        · refine ⟨"The 'change_ownership' parameter requires 'migrate_share=True'.", ?_⟩
          unfold migrate_dashboards
          obtain ⟨hms, hco⟩ := d3
          have hN2 : names.isEmpty = false := by revert hN; cases names.isEmpty <;> simp
          rw [hI, hN2, hms, hco]
          simp
    · by_cases hN : names.isEmpty = true
      · obtain d1 | d2 | d3 := h
        · exact absurd d1.2 (by simp [hN])
        · exact absurd d2.1 hI
        · refine ⟨"The 'change_ownership' parameter requires 'migrate_share=True'.", ?_⟩
          unfold migrate_dashboards
          obtain ⟨hms, hco⟩ := d3
          have hI2 : ids.isEmpty = false := by revert hI; cases ids.isEmpty <;> simp
          rw [hN, hI2, hms, hco]
          simp
      · refine ⟨"Provide either 'dashboard_ids' or 'dashboard_names', not both.", ?_⟩
        unfold migrate_dashboards
        have hI2 : ids.isEmpty = false := by revert hI; cases ids.isEmpty <;> simp
        have hN2 : names.isEmpty = false := by revert hN; cases names.isEmpty <;> simp
        rw [hI2, hN2]
        simp

/-- C7 counterexample: with a valid argument combination (a single dashboard
id, `migrate_share := true`), a 200-status non-JSON body returned by the
target's share endpoint makes the share-migration step's `.json()` call raise,
and the exception propagates out of `migrate_dashboards` instead of being
recorded in the returned summary — refuting the claim that every
non-validation failure is converted to an error payload. -/
theorem migrate_dashboards_valueError_policy_cex :
    migrate_dashboards c7Env ["d1"] [] none false true false
      = .error (.jsonError "invalid JSON: bad") ∧
    (PyExc.jsonError "invalid JSON: bad").isValueError = false :=
  ⟨by decide, rfl⟩

/-- C7 witness. -/
theorem migrate_dashboards_valueError_policy_witness :
    ∃ m, migrate_dashboards nullDashEnv [] [] none false false false
      = .error (.valueError m) :=
  (migrate_dashboards_valueError_policy nullDashEnv [] [] none false false false).mpr
    (Or.inr (Or.inl ⟨rfl, rfl⟩))

end PySisense
